import Mathlib

/-!
# Verification of the `web-media-box` HLS playlist parser core

A shallow embedding of the HLS playlist parser found in
`packages/hls-parser/src/lib`.  Pure data (the parsed playlist, the shared
state) becomes Lean structures; the mutating methods of the `Parser` class
become state-passing functions; JavaScript exceptions become `Option`
(`none` = a thrown `TypeError`); JavaScript `NaN`/`undefined` numbers are
collapsed to `Option JsRat` with `none` standing for "not a usable number";
warnings emitted through `warnCallback` are accumulated in a list.

Components of the repository that are not part of the given sources (the
character state machine, the empty-tag and value-tag processors, the
defaults, and the parse utilities) are reconstructed from the repository's
specification document; every such definition carries a doc comment
starting with `Modelled from the spec:`.
-/

set_option maxHeartbeats 1000000
set_option linter.unreachableTactic false
set_option linter.unusedTactic false

/-- A rational number with structurally computable (kernel-reducible)
arithmetic, standing in for the JavaScript `number` values of the source.
Values are kept normalized (coprime numerator/denominator, positive
denominator), so derived structural equality is value equality. -/
structure JsRat where
  num : Int
  den : Nat
deriving DecidableEq

/-- Euclid's algorithm with structural fuel (the first argument strictly
decreases, so `a + 1` steps suffice). -/
def natGcdFuel : Nat → Nat → Nat → Nat
  | 0, _, b => b
  | fuel + 1, a, b => if a = 0 then b else natGcdFuel fuel (b % a) a

def natGcd (a b : Nat) : Nat := natGcdFuel (a + 1) a b

/-- Build a normalized `JsRat` (the degenerate zero denominator maps to
zero; no source code path divides by zero). -/
def mkJsRat (n : Int) (d : Nat) : JsRat :=
  if d = 0 then ⟨0, 1⟩
  else
    let g := natGcd n.natAbs d
    ⟨n / (g : Int), d / g⟩

instance (n : Nat) : OfNat JsRat n := ⟨⟨(n : Int), 1⟩⟩

instance : NatCast JsRat := ⟨fun n => ⟨(n : Int), 1⟩⟩

instance : IntCast JsRat := ⟨fun n => ⟨n, 1⟩⟩

instance : Neg JsRat := ⟨fun x => ⟨-x.num, x.den⟩⟩

instance : Add JsRat :=
  ⟨fun x y => mkJsRat (x.num * (y.den : Int) + y.num * (x.den : Int)) (x.den * y.den)⟩

instance : Sub JsRat :=
  ⟨fun x y => mkJsRat (x.num * (y.den : Int) - y.num * (x.den : Int)) (x.den * y.den)⟩

instance : Mul JsRat := ⟨fun x y => mkJsRat (x.num * y.num) (x.den * y.den)⟩

instance : Div JsRat :=
  ⟨fun x y =>
    mkJsRat (x.num * (y.den : Int) * (if y.num < 0 then -1 else 1)) (x.den * y.num.natAbs)⟩

def powJsRat : JsRat → Nat → JsRat
  | _, 0 => 1
  | x, n + 1 => x * powJsRat x n

instance : Pow JsRat Nat := ⟨powJsRat⟩

instance : LT JsRat := ⟨fun a b => a.num * (b.den : Int) < b.num * (a.den : Int)⟩

instance (a b : JsRat) : Decidable (a < b) := Int.decLt _ _

instance : ToString JsRat :=
  ⟨fun x => if x.den = 1 then toString x.num else toString x.num ++ "/" ++ toString x.den⟩

/-- An attribute map, in commit order (as produced by the attribute lexer).
JavaScript records are keyed objects; later commits overwrite earlier ones,
so lookup is last-wins. -/
abbrev AttrMap := List (String × String)

/-- Last-wins lookup, mirroring JavaScript record indexing `obj[key]`
(`none` = `undefined`). -/
def getAttr (m : AttrMap) (k : String) : Option String :=
  (m.reverse.lookup k)

/-- Mirrors the JavaScript `key in obj` test. -/
def hasAttr (m : AttrMap) (k : String) : Bool :=
  (getAttr m k).isSome

/-- Mirrors JavaScript string truthiness of `obj[key]` (`undefined` and the
empty string are falsy). -/
def attrTruthy (m : AttrMap) (k : String) : Option String :=
  match getAttr m k with
  | none => none
  | some v => if v = "" then none else some v

/-- JavaScript number-truthiness for an optional number (`undefined`, `NaN`
and `0` are falsy; `none` covers `undefined`/`NaN` in this embedding). -/
def numTruthy (o : Option JsRat) : Bool :=
  match o with
  | none => false
  | some v => v != 0

/-- JavaScript-style whitespace test for trimming. -/
def isJsWhitespace (c : Char) : Bool :=
  c = ' ' || c = '\t' || c = '\n' || c = '\r' || c = '\x0b' || c = '\x0c'

/-- Trim whitespace from both ends of a character list. -/
def trimChars (cs : List Char) : List Char :=
  ((cs.dropWhile isJsWhitespace).reverse.dropWhile isJsWhitespace).reverse

/-- Split a character list on a separator character (mirrors
`String.prototype.split` with a one-character separator). -/
def splitChars (sep : Char) (cs : List Char) : List (List Char) :=
  go cs []
where
  go : List Char → List Char → List (List Char)
    | [], acc => [acc.reverse]
    | c :: rest, acc => if c = sep then acc.reverse :: go rest [] else go rest (c :: acc)

/-- `split` for strings, built on `splitChars`. -/
def splitStrings (sep : Char) (s : String) : List String :=
  (splitChars sep s.data).map String.mk

/-- Join character lists with a separator character. -/
def joinChars (sep : Char) : List (List Char) → List Char
  | [] => []
  | [cs] => cs
  | cs :: rest => cs ++ sep :: joinChars sep rest

/-- Join strings with a separator character. -/
def joinStrings (sep : Char) (l : List String) : String :=
  String.mk (joinChars sep (l.map String.data))

/-- Position after the first `?` of a URL, if any (the query string). -/
def dropToQueryStart : List Char → Option (List Char)
  | [] => none
  | '?' :: rest => some rest
  | _ :: rest => dropToQueryStart rest

/-- Split at the first occurrence of a separator; `none` when absent. -/
def splitFirstChar (sep : Char) : List Char → List Char × Option (List Char)
  | [] => ([], none)
  | c :: rest =>
    if c = sep then ([], some rest)
    else
      let r := splitFirstChar sep rest
      (c :: r.1, r.2)

/-- Digits of a decimal literal. -/
def parseDigits : List Char → Option Nat
  | [] => none
  | cs =>
    if cs.all Char.isDigit then
      some (cs.foldl (fun n c => n * 10 + (c.toNat - 48)) 0)
    else none

/-- Modelled from the spec: numeric coercion used where the source calls
`Number(...)` on attribute and tag values (the source's number parsing
lives in the untranslated utility layer).  Handles an optional sign and a
decimal literal; `none` stands for `NaN`.  Like JavaScript's `Number`, a
blank string coerces to `0`. -/
def jsNumber (s : String) : Option JsRat :=
  let cs := trimChars s.data
  match cs with
  | [] => some 0
  | _ =>
    let (sign, body) : JsRat × List Char :=
      match cs with
      | '-' :: rest => (-1, rest)
      | '+' :: rest => (1, rest)
      | _ => (1, cs)
    match splitChars '.' body with
    | [intPart] => (parseDigits intPart).map (fun n => sign * (n : JsRat))
    | [intPart, fracPart] =>
      match parseDigits intPart, parseDigits fracPart with
      | some n, some f => some (sign * ((n : JsRat) + (f : JsRat) / ((10 : JsRat) ^ fracPart.length)))
      | _, _ => none
    | _ => none

/-- `Number` applied to a possibly-`undefined` value (`Number(undefined)`
is `NaN`). -/
def jsNumberOpt (o : Option String) : Option JsRat :=
  o.bind jsNumber

/-- Modelled from the spec: the `parseFloat`-style prefix parse used for
the `EXTINF` duration (the value-tag processors are untranslated).  Takes
the longest numeric prefix after trimming; `none` = `NaN`. -/
def jsParseFloat (s : String) : Option JsRat :=
  let cs := s.data.dropWhile isJsWhitespace
  let (sign, body) : JsRat × List Char :=
    match cs with
    | '-' :: rest => (-1, rest)
    | '+' :: rest => (1, rest)
    | _ => (1, cs)
  let intPart := body.takeWhile Char.isDigit
  let rest := body.drop intPart.length
  let fracPart :=
    match rest with
    | '.' :: r => r.takeWhile Char.isDigit
    | _ => []
  if intPart.isEmpty && fracPart.isEmpty then none
  else
    let n : Nat := intPart.foldl (fun n c => n * 10 + (c.toNat - 48)) 0
    let f : Nat := fracPart.foldl (fun n c => n * 10 + (c.toNat - 48)) 0
    some (sign * ((n : JsRat) + (f : JsRat) / ((10 : JsRat) ^ fracPart.length)))

/-- Modelled from the spec: HLS boolean attribute coercion
(`parseBoolean(value, fallback)` in the untranslated utility layer):
`YES` is true, `NO` is false, anything else — including an absent
attribute — yields the fallback. -/
def parseBoolean (v : Option String) (fallback : Bool) : Bool :=
  match v with
  | some "YES" => true
  | some "NO" => false
  | _ => fallback

/-- Modelled from the spec: hex attribute parsing (`parseHex` in the
untranslated utility layer); a `0x…` string becomes a byte list. -/
def parseHex (s : String) : List Nat :=
  let body : List Char :=
    match s.data with
    | '0' :: 'x' :: rest => rest
    | '0' :: 'X' :: rest => rest
    | cs => cs
  let hexVal (c : Char) : Nat :=
    if c.isDigit then c.toNat - 48
    else if 'a' ≤ c && c ≤ 'f' then c.toNat - 87
    else if 'A' ≤ c && c ≤ 'F' then c.toNat - 55
    else 0
  let rec go : List Char → List Nat
    | c1 :: c2 :: rest => (hexVal c1 * 16 + hexVal c2) :: go rest
    | [c] => [hexVal c]
    | [] => []
  go body

/-- A byte range; bounds are `Option JsRat` because in the source they are
JavaScript numbers that can be `NaN` (e.g. a malformed `BYTERANGE`
attribute). -/
structure ByteRange where
  start : Option JsRat := none
  endB : Option JsRat := none
deriving DecidableEq

/-- `NaN`-propagating addition of JavaScript numbers. -/
def jsAdd (a b : Option JsRat) : Option JsRat :=
  match a, b with
  | some x, some y => some (x + y)
  | _, _ => none

structure Encryption where
  method : Option String := none
  uri : Option String := none
  resolvedUri : Option String := none
  iv : Option String := none
  keyFormat : String := "identity"
  keyFormatVersions : List (Option JsRat) := [some 1]
deriving DecidableEq

structure MapInfo where
  uri : String := ""
  resolvedUri : String := ""
  byteRange : Option ByteRange := none
  encryption : Option Encryption := none
deriving DecidableEq

structure PartSegment where
  uri : String := ""
  resolvedUri : String := ""
  duration : Option JsRat := none
  isGap : Bool := false
  independent : Bool := false
  byteRange : Option ByteRange := none
deriving DecidableEq

structure MediaSegment where
  uri : String := ""
  resolvedUri : String := ""
  duration : JsRat := 0
  title : String := ""
  byteRange : Option ByteRange := none
  bitrate : Option JsRat := none
  isDiscontinuity : Bool := false
  isGap : Bool := false
  encryption : Option Encryption := none
  map : Option MapInfo := none
  parts : List PartSegment := []
  programDateTimeStart : Option JsRat := none
  programDateTimeEnd : Option JsRat := none
  mediaSequence : JsRat := 0
  discontinuitySequence : JsRat := 0
  startTime : JsRat := 0
  endTime : JsRat := 0
deriving DecidableEq

structure Resolution where
  width : Option JsRat := none
  height : Option JsRat := none
deriving DecidableEq

structure VariantStream where
  uri : String := ""
  resolvedUri : String := ""
  bandwidth : Option JsRat := none
  averageBandwidth : Option JsRat := none
  score : Option JsRat := none
  codecs : List String := []
  supplementalCodecs : List String := []
  resolution : Option Resolution := none
  hdcpLevel : Option String := none
  allowedCpc : List (String × List String) := []
  videoRange : Option String := none
  stableVariantId : Option String := none
  video : Option String := none
  pathwayId : Option String := none
  frameRate : Option JsRat := none
  audio : Option String := none
  subtitles : Option String := none
  closedCaptions : Option String := none
deriving DecidableEq

structure IFramePlaylist where
  uri : String := ""
  resolvedUri : String := ""
  bandwidth : Option JsRat := none
  averageBandwidth : Option JsRat := none
  score : Option JsRat := none
  codecs : List String := []
  supplementalCodecs : List String := []
  resolution : Option Resolution := none
  hdcpLevel : Option String := none
  allowedCpc : List (String × List String) := []
  videoRange : Option String := none
  stableVariantId : Option String := none
  video : Option String := none
  pathwayId : Option String := none
deriving DecidableEq

structure Rendition where
  uri : Option String := none
  resolvedUri : Option String := none
  type : String := ""
  groupId : String := ""
  name : String := ""
  language : Option String := none
  assocLanguage : Option String := none
  defaultR : Bool := false
  autoSelect : Bool := false
  forced : Bool := false
  inStreamId : Option String := none
  characteristics : List String := []
  channels : List String := []
  stableRenditionId : Option String := none
deriving DecidableEq

structure RenditionGroups where
  audio : List (String × List Rendition) := []
  video : List (String × List Rendition) := []
  subtitles : List (String × List Rendition) := []
  closedCaptions : List (String × List Rendition) := []
deriving DecidableEq

structure DateRange where
  id : String := ""
  classAttr : Option String := none
  startDate : Option JsRat := none
  cues : List String := []
  endDate : Option String := none
  duration : Option JsRat := none
  plannedDuration : Option JsRat := none
  scte35Cmd : Option (List Nat) := none
  scte35Out : Option (List Nat) := none
  scte35In : Option (List Nat) := none
  endOnNext : Bool := false
  clientAttributes : List (String × String) := []
deriving DecidableEq

structure PreloadHint where
  uri : String := ""
  resolvedUri : String := ""
  byteRange : Option ByteRange := none
deriving DecidableEq

structure PreloadHints where
  part : Option PreloadHint := none
  map : Option PreloadHint := none
deriving DecidableEq

structure RenditionReport where
  uri : String := ""
  resolvedUri : String := ""
  lastMsn : Option JsRat := none
  lastPart : Option JsRat := none
deriving DecidableEq

structure SessionData where
  uri : Option String := none
  resolvedUri : Option String := none
  dataId : String := ""
  value : Option String := none
  format : Option String := none
  language : Option String := none
deriving DecidableEq

structure ContentSteering where
  serverUri : String := ""
  resolvedServerUri : String := ""
  pathwayId : Option String := none
deriving DecidableEq

structure SkipInfo where
  skippedSegments : Option JsRat := none
  recentlyRemovedDateRanges : List String := []
deriving DecidableEq

structure StartInfo where
  timeOffset : Option JsRat := none
  precise : Bool := false
deriving DecidableEq

structure PartInf where
  partTarget : Option JsRat := none
deriving DecidableEq

structure ServerControl where
  canSkipUntil : Option JsRat := none
  canBlockReload : Bool := false
  canSkipDateRanges : Bool := false
  holdBack : Option JsRat := none
  partHoldBack : Option JsRat := none
deriving DecidableEq

/-- The `define` aggregate: `NAME`/`IMPORT`/`QUERYPARAM` variable scopes.
Values are optional because the source can store `undefined` (a `NAME`
without a `VALUE`) or `null` (an unresolvable `IMPORT`/`QUERYPARAM`). -/
structure Define where
  name : List (String × Option String) := []
  importScope : List (String × Option String) := []
  queryParam : List (String × Option String) := []
deriving DecidableEq

/-- Opaque data mutated only by caller-supplied custom tag handlers
(`playlist.custom`); embedded as a string association list. -/
abbrev CustomData := List (String × String)

structure ParsedPlaylist where
  m3u : Bool := false
  version : Option JsRat := none
  independentSegments : Bool := false
  endList : Bool := false
  iFramesOnly : Bool := false
  playlistType : Option String := none
  targetDuration : Option JsRat := none
  mediaSequence : JsRat := 0
  discontinuitySequence : JsRat := 0
  start : Option StartInfo := none
  partInf : Option PartInf := none
  serverControl : Option ServerControl := none
  skip : Option SkipInfo := none
  preloadHints : PreloadHints := {}
  renditionReports : List RenditionReport := []
  define : Define := {}
  sessionKey : Option Encryption := none
  sessionData : List (String × SessionData) := []
  contentSteering : Option ContentSteering := none
  segments : List MediaSegment := []
  dateRanges : List DateRange := []
  variantStreams : List VariantStream := []
  iFramePlaylists : List IFramePlaylist := []
  renditionGroups : RenditionGroups := {}
  custom : CustomData := []
deriving DecidableEq

structure SharedState where
  currentSegment : MediaSegment := {}
  currentVariant : VariantStream := {}
  currentEncryption : Option Encryption := none
  currentMap : Option MapInfo := none
  currentBitrate : Option JsRat := none
  baseUrl : String := ""
  baseTime : JsRat := 0
  baseDefine : Option Define := none
  hasVariablesForSubstitution : Bool := false
  isMultivariantPlaylist : Bool := false
deriving DecidableEq

/-- Modelled from the spec: `createDefaultParsedPlaylist` from the
untranslated defaults module — all fields at their defaults. -/
def createDefaultParsedPlaylist : ParsedPlaylist := {}

/-- Modelled from the spec: `createDefaultSegment` from the untranslated
defaults module. -/
def createDefaultSegment : MediaSegment := {}

/-- Modelled from the spec: `createDefaultVariantStream` from the
untranslated defaults module. -/
def createDefaultVariantStream : VariantStream := {}

/-- Modelled from the spec: `createDefaultSharedState` from the
untranslated defaults module. -/
def createDefaultSharedState : SharedState := {}

/-- Association-list update with JavaScript record semantics: assignment
overwrites an existing key, otherwise appends. -/
def updateAssoc {α : Type} : List (String × α) → String → α → List (String × α)
  | [], k, v => [(k, v)]
  | (k', v') :: rest, k, v =>
    if k' = k then (k, v) :: rest else (k', v') :: updateAssoc rest k v

/-- Modelled from the spec: variable lookup order for `{$NAME}`
substitution — `define.name`, then `define.import`, then
`define.queryParam`; a stored `null`/`undefined` counts as not found. -/
def defLookup (d : Define) (nm : String) : Option String :=
  match d.name.lookup nm with
  | some (some v) => some v
  | _ =>
    match d.importScope.lookup nm with
    | some (some v) => some v
    | _ =>
      match d.queryParam.lookup nm with
      | some (some v) => some v
      | _ => none

/-- Scans to the closing `\x7d` of a `\x7b$NAME\x7d` pattern, returning the
name characters and the remainder. -/
def findVarEnd : List Char → Option (List Char × List Char)
  | [] => none
  | c :: rest =>
    if c = '}' then some ([], rest)
    else (findVarEnd rest).map (fun p => (c :: p.1, p.2))

/-- Modelled from the spec: the `substituteVariables` worker — replace each
`\x7b$NAME\x7d` with the defined value; an unknown name is left literal and
recorded (one entry per occurrence).  Fuel is the remaining input length. -/
def substGo (d : Define) : Nat → List Char → List Char × List String
  | 0, cs => (cs, [])
  | _ + 1, [] => ([], [])
  | fuel + 1, '{' :: '$' :: rest =>
    (match findVarEnd rest with
     | some (nameCs, rest') =>
       let nm := String.mk nameCs
       let (outp, ws) := substGo d fuel rest'
       (match defLookup d nm with
        | some v => (v.data ++ outp, ws)
        | none => ('{' :: '$' :: (nameCs ++ '}' :: outp), nm :: ws))
     | none =>
       let (outp, ws) := substGo d fuel ('$' :: rest)
       ('{' :: outp, ws))
  | fuel + 1, c :: rest =>
    let (outp, ws) := substGo d fuel rest
    (c :: outp, ws)

/-- Modelled from the spec: `substituteVariables(value, define, onMissing)`
from the untranslated utility layer; returns the substituted string and
the missing variable names in occurrence order. -/
def substituteVariables (s : String) (d : Define) : String × List String :=
  let r := substGo d (s.data.length + 1) s.data
  (String.mk r.1, r.2)

/-- Scans for a `://` separator; the flag records whether at least one
scheme character precedes it. -/
def schemeBeforeSep : List Char → Bool → Bool
  | ':' :: '/' :: '/' :: _, seen => seen
  | _ :: rest, _ => schemeBeforeSep rest true
  | [], _ => false

/-- A URI counts as absolute when it carries a `scheme://` part with a
nonempty scheme. -/
def isAbsoluteUri (s : String) : Bool :=
  schemeBeforeSep s.data false

/-- Modelled from the spec: `resolveUri(uri, baseUrl)` from the
untranslated utility layer — RFC 3986-style resolution reduced to the
cases the playlists exercise: an absolute URI is returned as is; with an
empty or non-absolute base the resolution fails (`none`, the source's
`null`); otherwise the URI is appended to the base's directory. -/
def resolveUri (uri baseUrl : String) : Option String :=
  if isAbsoluteUri uri then some uri
  else if !isAbsoluteUri baseUrl then none
  else
    let dir := (baseUrl.data.reverse.dropWhile (fun c => c ≠ '/')).reverse
    some (String.mk dir ++ uri)

/-! ## Warning strings (`utils/warn.ts`) -/

def skipProcessing (tag reason : String) : String :=
  "Skip processing " ++ tag ++ ". Reason: " ++ reason ++ "."

def missingTagValueWarn (tag : String) : String :=
  skipProcessing tag "No tag value"

def missingRequiredAttributeWarn (tag attrName : String) : String :=
  skipProcessing tag ("No required " ++ attrName ++ " attribute")

def missingRequiredVariableForAttributeValueSubstitutionWarn
    (tag attrName variableName : String) : String :=
  tag ++ ": Unable to substitute variable for " ++ variableName ++
    " when processing the following attribute: " ++ attrName

def missingRequiredVariableForUriSubstitutionWarn (uri variableName : String) : String :=
  "Unable to substitute variable for " ++ variableName ++
    " when processing the following uri: " ++ uri

def unsupportedTagWarn (tag : String) : String :=
  skipProcessing tag "Unsupported"

def unableToParseValueWarn (tag : String) : String :=
  skipProcessing tag "Unable to parse tag value"

def failedToResolveUriAttribute (tag attrName uriValue baseUrl : String) : String :=
  tag ++ ": Failed to resolve " ++ attrName ++ ". Value: " ++ uriValue ++
    ". Base URL: " ++ baseUrl

def failedToResolveUri (uriValue baseUrl : String) : String :=
  "Failed to resolve " ++ uriValue ++ ". Base URL: " ++ baseUrl

def unsupportedEnumValue (tag actual : String) (required : List String) : String :=
  skipProcessing tag
    ("received unsupported tag value: " ++ actual ++ ". Possible values: " ++
      joinStrings ',' required)

def ignoreTagWarn (tag : String) : String :=
  skipProcessing tag "Tag is included in the ignore list"

def segmentDurationExceededTargetDuration
    (segmentUri : String) (segmentDuration targetDuration : JsRat) : String :=
  "Segment duration is more than target duration. Difference is " ++
    toString (segmentDuration - targetDuration) ++ ". Uri is " ++ segmentUri

/-! ## Tag name constants (`consts/tags.ts`) -/

def EXTM3U : String := "EXTM3U"
def EXT_X_VERSION : String := "EXT-X-VERSION"
def EXT_X_INDEPENDENT_SEGMENTS : String := "EXT-X-INDEPENDENT-SEGMENTS"
def EXT_X_ENDLIST : String := "EXT-X-ENDLIST"
def EXT_X_I_FRAMES_ONLY : String := "EXT-X-I-FRAMES-ONLY"
def EXT_X_DISCONTINUITY : String := "EXT-X-DISCONTINUITY"
def EXT_X_GAP : String := "EXT-X-GAP"
def EXT_X_TARGETDURATION : String := "EXT-X-TARGETDURATION"
def EXT_X_MEDIA_SEQUENCE : String := "EXT-X-MEDIA-SEQUENCE"
def EXT_X_DISCONTINUITY_SEQUENCE : String := "EXT-X-DISCONTINUITY-SEQUENCE"
def EXT_X_PLAYLIST_TYPE : String := "EXT-X-PLAYLIST-TYPE"
def EXTINF : String := "EXTINF"
def EXT_X_BYTERANGE : String := "EXT-X-BYTERANGE"
def EXT_X_BITRATE : String := "EXT-X-BITRATE"
def EXT_X_PROGRAM_DATE_TIME : String := "EXT-X-PROGRAM-DATE-TIME"
def EXT_X_START : String := "EXT-X-START"
def EXT_X_PART_INF : String := "EXT-X-PART-INF"
def EXT_X_SERVER_CONTROL : String := "EXT-X-SERVER-CONTROL"
def EXT_X_KEY : String := "EXT-X-KEY"
def EXT_X_MAP : String := "EXT-X-MAP"
def EXT_X_PART : String := "EXT-X-PART"
def EXT_X_MEDIA : String := "EXT-X-MEDIA"
def EXT_X_STREAM_INF : String := "EXT-X-STREAM-INF"
def EXT_X_SKIP : String := "EXT-X-SKIP"
def EXT_X_I_FRAME_STREAM_INF : String := "EXT-X-I-FRAME-STREAM-INF"
def EXT_X_DATERANGE : String := "EXT-X-DATERANGE"
def EXT_X_PRELOAD_HINT : String := "EXT-X-PRELOAD-HINT"
def EXT_X_RENDITION_REPORT : String := "EXT-X-RENDITION-REPORT"
def EXT_X_SESSION_DATA : String := "EXT-X-SESSION-DATA"
def EXT_X_SESSION_KEY : String := "EXT-X-SESSION-KEY"
def EXT_X_CONTENT_STEERING : String := "EXT-X-CONTENT-STEERING"
def EXT_X_DEFINE : String := "EXT-X-DEFINE"

/-! ## Attribute-tag processors (`tags/tagWithAttributesProcessors.ts`) -/

/-- Result of one processing step: the new playlist, the new shared state,
and the warnings emitted (in order) by the step. -/
abbrev ProcResult := ParsedPlaylist × SharedState × List String

/-- `TagWithAttributesProcessor.resolveUriAttribute`: resolve an attribute
URI against the base URL, warning and keeping the raw value on failure. -/
def resolveUriAttribute (tag attrKey uri baseUrl : String) : String × List String :=
  match resolveUri uri baseUrl with
  | none => (uri, [failedToResolveUriAttribute tag attrKey uri baseUrl])
  | some r => (r, [])

/-- `TagWithAttributesProcessor.runVariableSubstitution`: when variables
are in scope, substitute into every attribute value, warning once per
missing variable occurrence. -/
def runVariableSubstitution (tag : String) (attrs : AttrMap) (p : ParsedPlaylist)
    (s : SharedState) : AttrMap × List String :=
  if s.hasVariablesForSubstitution then
    (attrs.map (fun kv => (kv.1, (substituteVariables kv.2 p.define).1)),
     (attrs.map (fun kv => ((substituteVariables kv.2 p.define).2).map
        (fun nm => missingRequiredVariableForAttributeValueSubstitutionWarn tag kv.1 nm))).flatten)
  else (attrs, [])

/-- `TagWithAttributesProcessor.process`: warn for every missing required
attribute and abort if any is missing; otherwise run variable substitution
and hand the attributes to the tag's `safeProcess`.  A `none` result is a
thrown exception. -/
def attrTagProcess (required : List String) (tag : String)
    (safe : AttrMap → ParsedPlaylist → SharedState → Option ProcResult)
    (attrs : AttrMap) (p : ParsedPlaylist) (s : SharedState) : Option ProcResult :=
  let missing := required.filter (fun r => !hasAttr attrs r)
  if missing.isEmpty then
    let sub := runVariableSubstitution tag attrs p s
    (safe sub.1 p s).map (fun r => (r.1, r.2.1, sub.2 ++ r.2.2))
  else
    some (p, s, missing.map (missingRequiredAttributeWarn tag))

/-- `ExtXStart.safeProcess`. -/
def extXStartSafeProcess (attrs : AttrMap) (p : ParsedPlaylist) (s : SharedState) :
    Option ProcResult :=
  let st : StartInfo :=
    { timeOffset := jsNumberOpt (getAttr attrs "TIME-OFFSET"),
      precise := parseBoolean (getAttr attrs "PRECISE") false }
  some ({ p with start := some st }, s, [])

/-- `ExtXPartInf.safeProcess`. -/
def extXPartInfSafeProcess (attrs : AttrMap) (p : ParsedPlaylist) (s : SharedState) :
    Option ProcResult :=
  let pi : PartInf := { partTarget := jsNumberOpt (getAttr attrs "PART-TARGET") }
  some ({ p with partInf := some pi }, s, [])

/-- `ExtXServerControl.safeProcess`. -/
def extXServerControlSafeProcess (attrs : AttrMap) (p : ParsedPlaylist) (s : SharedState) :
    Option ProcResult :=
  let holdBack : Option JsRat :=
    match attrTruthy attrs "HOLD-BACK" with
    | some v => jsNumber v
    | none =>
      match p.targetDuration with
      | some t => if t ≠ 0 then some (t * 3) else none
      | none => none
  let partHoldBack : Option JsRat :=
    match attrTruthy attrs "PART-HOLD-BACK" with
    | some v => jsNumber v
    | none =>
      match p.partInf.bind (fun pi => pi.partTarget) with
      | some t => if t ≠ 0 then some (t * 3) else none
      | none => none
  let sc : ServerControl :=
    { canSkipUntil := (attrTruthy attrs "CAN-SKIP-UNTIL").bind jsNumber,
      canBlockReload := parseBoolean (getAttr attrs "CAN-BLOCK-RELOAD") false,
      canSkipDateRanges := parseBoolean (getAttr attrs "CAN-SKIP-DATERANGES") false,
      holdBack := holdBack,
      partHoldBack := partHoldBack }
  some ({ p with serverControl := some sc }, s, [])

/-- `EncryptionTagProcessor.parseEncryptionTag` (shared by `EXT-X-KEY` and
`EXT-X-SESSION-KEY`). -/
def parseEncryptionTag (tag : String) (attrs : AttrMap) (s : SharedState) :
    Encryption × List String :=
  let uri := getAttr attrs "URI"
  let resolved : Option String × List String :=
    match uri with
    | some u => if u = "" then (none, []) else
        let r := resolveUriAttribute tag "URI" u s.baseUrl
        (some r.1, r.2)
    | none => (none, [])
  ({ method := getAttr attrs "METHOD",
     uri := uri,
     resolvedUri := resolved.1,
     iv := getAttr attrs "IV",
     keyFormat := (attrTruthy attrs "KEYFORMAT").getD "identity",
     keyFormatVersions :=
       match attrTruthy attrs "KEYFORMATVERSIONS" with
       | some v => (splitStrings '/' v).map jsNumber
       | none => [some 1] }, resolved.2)

/-- `ExtXKey.safeProcess`: the `URI` attribute is required unless
`METHOD` is `NONE`. -/
def extXKeySafeProcess (attrs : AttrMap) (p : ParsedPlaylist) (s : SharedState) :
    Option ProcResult :=
  let r := parseEncryptionTag EXT_X_KEY attrs s
  let enc := r.1
  let uriFalsy : Bool :=
    match enc.uri with
    | none => true
    | some v => v = ""
  if enc.method ≠ some "NONE" && uriFalsy then
    some (p, s, r.2 ++ [missingRequiredAttributeWarn EXT_X_KEY "URI"])
  else
    some (p, { s with currentEncryption := some enc }, r.2)

/-- `ExtXMap.safeProcess`. -/
def extXMapSafeProcess (attrs : AttrMap) (p : ParsedPlaylist) (s : SharedState) :
    Option ProcResult :=
  let byteRange : Option ByteRange :=
    match attrTruthy attrs "BYTERANGE" with
    | some v =>
      let parts := (splitStrings '@' v).map jsNumber
      let len := (parts.get? 0).join
      let offset := (parts.get? 1).join
      some { start := offset, endB := jsAdd (jsAdd offset len) (some (-1)) }
    | none => none
  let uri := (getAttr attrs "URI").getD ""
  let r := resolveUriAttribute EXT_X_MAP "URI" uri s.baseUrl
  let m : MapInfo :=
    { uri := uri, resolvedUri := r.1, byteRange := byteRange,
      encryption := s.currentEncryption }
  some (p, { s with currentMap := some m }, r.2)

/-- `ExtXPart.safeProcess`. -/
def extXPartSafeProcess (attrs : AttrMap) (p : ParsedPlaylist) (s : SharedState) :
    Option ProcResult :=
  let uri := (getAttr attrs "URI").getD ""
  let r := resolveUriAttribute EXT_X_PART "URI" uri s.baseUrl
  let part : PartSegment :=
    { uri := uri, resolvedUri := r.1,
      duration := jsNumberOpt (getAttr attrs "DURATION"),
      isGap := parseBoolean (getAttr attrs "GAP") false,
      independent := parseBoolean (getAttr attrs "INDEPENDENT") false }
  match attrTruthy attrs "BYTERANGE" with
  | some v =>
    let vals := splitStrings '@' v
    let len := ((vals.get? 0).map jsNumber).join
    let offset0 := ((vals.get? 1).map jsNumber).join
    match offset0 with
    | none =>
      match s.currentSegment.parts.getLast? with
      | some prevPart =>
        (match prevPart.byteRange with
         | some br =>
           let offset := jsAdd br.endB (some 1)
           let br2 : ByteRange := { start := offset, endB := jsAdd (jsAdd offset len) (some (-1)) }
           let part := { part with byteRange := some br2 }
           let seg := { s.currentSegment with parts := s.currentSegment.parts ++ [part] }
           some (p, { s with currentSegment := seg }, r.2)
         | none =>
           some (p, s, r.2 ++ ["Unable to parse " ++ EXT_X_PART ++
             ": A BYTERANGE attribute without offset requires a previous partial segment with a byterange"]))
      | none =>
        some (p, s, r.2 ++ ["Unable to parse " ++ EXT_X_PART ++
          ": A BYTERANGE attribute without offset requires a previous partial segment with a byterange"])
    | some off =>
      let offset : Option JsRat := some off
      let br2 : ByteRange := { start := offset, endB := jsAdd (jsAdd offset len) (some (-1)) }
      let part := { part with byteRange := some br2 }
      let seg := { s.currentSegment with parts := s.currentSegment.parts ++ [part] }
      some (p, { s with currentSegment := seg }, r.2)
  | none =>
    let seg := { s.currentSegment with parts := s.currentSegment.parts ++ [part] }
    some (p, { s with currentSegment := seg }, r.2)

/-- `ExtXSkip.safeProcess`, faithfully including the source's truthiness
test of the constant attribute *name* (always true), so that an absent
`RECENTLY-REMOVED-DATERANGES` attribute makes the source call `.split` on
`undefined` — a thrown `TypeError`, embedded as `none`. -/
def extXSkipSafeProcess (attrs : AttrMap) (p : ParsedPlaylist) (s : SharedState) :
    Option ProcResult :=
  match getAttr attrs "RECENTLY-REMOVED-DATERANGES" with
  | none => none
  | some v =>
    let sk : SkipInfo :=
      { skippedSegments := jsNumberOpt (getAttr attrs "SKIPPED-SEGMENTS"),
        recentlyRemovedDateRanges := splitStrings '\t' v }
    some ({ p with skip := some sk }, s, [])

/-- `ExtXMedia.typeToKeyMap` plus the group update: appends to the group
if it exists, creates it otherwise; an unknown `TYPE` indexes the group
record with `undefined`, a thrown `TypeError` (`none`). -/
def addRendition (rg : RenditionGroups) (ty groupId : String) (r : Rendition) :
    Option RenditionGroups :=
  let upd (l : List (String × List Rendition)) : List (String × List Rendition) :=
    match l.lookup groupId with
    | some grp => updateAssoc l groupId (grp ++ [r])
    | none => updateAssoc l groupId [r]
  match ty with
  | "AUDIO" => some { rg with audio := upd rg.audio }
  | "VIDEO" => some { rg with video := upd rg.video }
  | "SUBTITLES" => some { rg with subtitles := upd rg.subtitles }
  | "CLOSED-CAPTIONS" => some { rg with closedCaptions := upd rg.closedCaptions }
  | _ => none

/-- `ExtXMedia.safeProcess`. -/
def extXMediaSafeProcess (attrs : AttrMap) (p : ParsedPlaylist) (s : SharedState) :
    Option ProcResult :=
  let uri := getAttr attrs "URI"
  let resolved : Option String × List String :=
    match uri with
    | some u => if u = "" then (none, []) else
        let r := resolveUriAttribute EXT_X_MEDIA "URI" u s.baseUrl
        (some r.1, r.2)
    | none => (none, [])
  let rend : Rendition :=
    { uri := uri,
      resolvedUri := resolved.1,
      type := (getAttr attrs "TYPE").getD "",
      groupId := (getAttr attrs "GROUP-ID").getD "",
      name := (getAttr attrs "NAME").getD "",
      language := getAttr attrs "LANGUAGE",
      assocLanguage := getAttr attrs "ASSOC-LANGUAGE",
      defaultR := parseBoolean (getAttr attrs "DEFAULT") false,
      autoSelect := parseBoolean (getAttr attrs "AUTOSELECT") false,
      forced := parseBoolean (getAttr attrs "FORCED") false,
      inStreamId := getAttr attrs "INSTREAM-ID",
      characteristics :=
        match attrTruthy attrs "CHARACTERISTICS" with
        | some v => splitStrings ',' v
        | none => [],
      channels :=
        match attrTruthy attrs "CHANNELS" with
        | some v => splitStrings '/' v
        | none => [],
      stableRenditionId := getAttr attrs "STABLE-RENDITION-ID" }
  (addRendition p.renditionGroups rend.type rend.groupId rend).map
    (fun rg => ({ p with renditionGroups := rg }, s, resolved.2))

/-- `BaseStreamInfProcessor.parseResolution`. -/
def parseResolution (value : Option String) : Option Resolution :=
  let parsed :=
    match value with
    | some v => (splitStrings 'x' v).map jsNumber
    | none => []
  match parsed with
  | [w, h] => some { width := w, height := h }
  | _ => none

/-- `BaseStreamInfProcessor.parseAllowedCpc`. -/
def parseAllowedCpc (value : Option String) : List (String × List String) :=
  let entries :=
    match value with
    | some v => splitStrings ',' v
    | none => []
  entries.foldl
    (fun acc entry =>
      match splitStrings ':' entry with
      | [] => acc
      | keyFormat :: rest =>
        if keyFormat = "" then acc
        else
          match rest with
          | [] => updateAssoc acc keyFormat []
          | v :: _ => if v = "" then updateAssoc acc keyFormat []
                      else updateAssoc acc keyFormat (splitStrings '/' v))
    []

/-- `BaseStreamInfProcessor.parseCommonAttributes`, shared by
`EXT-X-STREAM-INF` and `EXT-X-I-FRAME-STREAM-INF`. -/
def parseCommonAttributes (attrs : AttrMap) : IFramePlaylist :=
  { uri := "",
    resolvedUri := "",
    bandwidth := jsNumberOpt (getAttr attrs "BANDWIDTH"),
    averageBandwidth := (attrTruthy attrs "AVERAGE-BANDWIDTH").bind jsNumber,
    score := (attrTruthy attrs "SCORE").bind jsNumber,
    codecs :=
      match attrTruthy attrs "CODECS" with
      | some v => (splitChars ',' v.data).map (fun cs => String.mk (trimChars cs))
      | none => [],
    supplementalCodecs :=
      match attrTruthy attrs "SUPPLEMENTAL-CODECS" with
      | some v => (splitChars ',' v.data).map (fun cs => String.mk (trimChars cs))
      | none => [],
    resolution := parseResolution (getAttr attrs "RESOLUTION"),
    hdcpLevel := getAttr attrs "HDCP-LEVEL",
    allowedCpc := parseAllowedCpc (getAttr attrs "ALLOWED-CPC"),
    videoRange := getAttr attrs "VIDEO-RANGE",
    stableVariantId := getAttr attrs "STABLE-VARIANT-ID",
    video := getAttr attrs "VIDEO",
    pathwayId := getAttr attrs "PATHWAY-ID" }

/-- `ExtXStreamInf.safeProcess`: fills `currentVariant` and flags the
playlist as multivariant. -/
def extXStreamInfSafeProcess (attrs : AttrMap) (p : ParsedPlaylist) (s : SharedState) :
    Option ProcResult :=
  let c := parseCommonAttributes attrs
  let variant : VariantStream :=
    { uri := c.uri, resolvedUri := c.resolvedUri, bandwidth := c.bandwidth,
      averageBandwidth := c.averageBandwidth, score := c.score, codecs := c.codecs,
      supplementalCodecs := c.supplementalCodecs, resolution := c.resolution,
      hdcpLevel := c.hdcpLevel, allowedCpc := c.allowedCpc, videoRange := c.videoRange,
      stableVariantId := c.stableVariantId, video := c.video, pathwayId := c.pathwayId,
      frameRate := (attrTruthy attrs "FRAME-RATE").bind jsNumber,
      audio := getAttr attrs "AUDIO",
      subtitles := getAttr attrs "SUBTITLES",
      closedCaptions := getAttr attrs "CLOSED-CAPTIONS" }
  some (p, { s with currentVariant := variant, isMultivariantPlaylist := true }, [])

/-- `ExtXIFrameStreamInf.safeProcess`. -/
def extXIFrameStreamInfSafeProcess (attrs : AttrMap) (p : ParsedPlaylist) (s : SharedState) :
    Option ProcResult :=
  let uri := (getAttr attrs "URI").getD ""
  let r := resolveUriAttribute EXT_X_I_FRAME_STREAM_INF "URI" uri s.baseUrl
  let iframe := { parseCommonAttributes attrs with uri := uri, resolvedUri := r.1 }
  some ({ p with iFramePlaylists := p.iFramePlaylists ++ [iframe] }, s, r.2)

/-- Modelled from the spec: `Date.parse` of an ISO-8601 timestamp to
milliseconds since the epoch (the source's `EXT-X-DATERANGE` processor
calls the JavaScript built-in).  Supports
`YYYY-MM-DDTHH:MM:SS(.fff)?Z`; anything else is `NaN` (`none`). -/
def parseIso8601ToMs (s : String) : Option JsRat :=
  match splitStrings 'T' s with
  | [datePart, timePart] =>
    (match splitStrings '-' datePart, splitStrings ':' ((splitStrings 'Z' timePart).headI) with
     | [y, mo, d], [h, mi, sec] =>
       if (match timePart.data.reverse with | 'Z' :: _ => true | _ => false) then
         match parseDigits y.data, parseDigits mo.data, parseDigits d.data,
               parseDigits h.data, parseDigits mi.data, jsNumber sec with
         | some yv, some mov, some dv, some hv, some miv, some secv =>
           if 1 ≤ mov && mov ≤ 12 && 1 ≤ dv && 1970 ≤ yv then
             let isLeap := yv % 4 = 0 && (yv % 100 ≠ 0 || yv % 400 = 0)
             let doyTbl := [0, 31, 59, 90, 120, 151, 181, 212, 243, 273, 304, 334]
             let daysBeforeYear := 365 * (yv - 1) + (yv - 1) / 4 - (yv - 1) / 100 + (yv - 1) / 400
             let doy := doyTbl.getD (mov - 1) 0 + (if isLeap && mov > 2 then 1 else 0) + (dv - 1)
             let epochDays := daysBeforeYear + doy - 719162
             some (((epochDays * 86400 + hv * 3600 + miv * 60 : Nat) : JsRat) * 1000 + secv * 1000)
           else none
         | _, _, _, _, _, _ => none
       else none
     | _, _ => none)
  | _ => none

/-- `ExtXDateRange.safeProcess`. -/
def extXDateRangeSafeProcess (attrs : AttrMap) (p : ParsedPlaylist) (s : SharedState) :
    Option ProcResult :=
  let dr : DateRange :=
    { id := (getAttr attrs "ID").getD "",
      classAttr := getAttr attrs "CLASS",
      startDate := (getAttr attrs "START-DATE").bind parseIso8601ToMs,
      cues :=
        match attrTruthy attrs "CUE" with
        | some v => splitStrings ',' v
        | none => [],
      endDate := getAttr attrs "END-DATE",
      duration := (attrTruthy attrs "DURATION").bind jsNumber,
      plannedDuration := (attrTruthy attrs "PLANNED-DURATION").bind jsNumber,
      scte35Cmd := (attrTruthy attrs "SCTE35-CMD").map parseHex,
      scte35Out := (attrTruthy attrs "SCTE35-OUT").map parseHex,
      scte35In := (attrTruthy attrs "SCTE35-IN").map parseHex,
      endOnNext := parseBoolean (getAttr attrs "END-ON-NEXT") false,
      clientAttributes := attrs.filter (fun kv =>
        match kv.1.data with
        | 'X' :: '-' :: _ => true
        | _ => false) }
  some ({ p with dateRanges := p.dateRanges ++ [dr] }, s, [])

/-- `ExtXPreloadHint.safeProcess`. -/
def extXPreloadHintSafeProcess (attrs : AttrMap) (p : ParsedPlaylist) (s : SharedState) :
    Option ProcResult :=
  let ty := getAttr attrs "TYPE"
  let uri := (getAttr attrs "URI").getD ""
  let r := resolveUriAttribute EXT_X_PRELOAD_HINT "URI" uri s.baseUrl
  let pStart := attrTruthy attrs "BYTERANGE-START"
  let pLength := attrTruthy attrs "BYTERANGE-LENGTH"
  let byteRange : Option ByteRange :=
    match pStart, pLength with
    | some st, some ln =>
      some { start := jsNumber st, endB := jsAdd (jsAdd (jsNumber st) (jsNumber ln)) (some (-1)) }
    | some st, none => some { start := jsNumber st, endB := some 9007199254740991 }
    | none, some ln => some { start := some 0, endB := jsAdd (jsNumber ln) (some (-1)) }
    | none, none => none
  let hint : PreloadHint := { uri := uri, resolvedUri := r.1, byteRange := byteRange }
  let p :=
    if ty = some "PART" then { p with preloadHints := { p.preloadHints with part := some hint } }
    else p
  let p :=
    if ty = some "MAP" then { p with preloadHints := { p.preloadHints with map := some hint } }
    else p
  some (p, s, r.2)

/-- `ExtXRenditionReport.safeProcess`. -/
def extXRenditionReportSafeProcess (attrs : AttrMap) (p : ParsedPlaylist) (s : SharedState) :
    Option ProcResult :=
  let uri := (getAttr attrs "URI").getD ""
  let r := resolveUriAttribute EXT_X_RENDITION_REPORT "URI" uri s.baseUrl
  let report : RenditionReport :=
    { uri := uri, resolvedUri := r.1,
      lastMsn := (attrTruthy attrs "LAST-MSN").bind jsNumber,
      lastPart := (attrTruthy attrs "LAST-PART").bind jsNumber }
  some ({ p with renditionReports := p.renditionReports ++ [report] }, s, r.2)

/-- `ExtXSessionData.safeProcess`. -/
def extXSessionDataSafeProcess (attrs : AttrMap) (p : ParsedPlaylist) (s : SharedState) :
    Option ProcResult :=
  let uri := getAttr attrs "URI"
  let resolved : Option String × List String :=
    match uri with
    | some u => if u = "" then (none, []) else
        let r := resolveUriAttribute EXT_X_SESSION_DATA "URI" u s.baseUrl
        (some r.1, r.2)
    | none => (none, [])
  let sd : SessionData :=
    { uri := uri, resolvedUri := resolved.1,
      dataId := (getAttr attrs "DATA-ID").getD "",
      value := getAttr attrs "VALUE",
      format := getAttr attrs "FORMAT",
      language := getAttr attrs "LANGUAGE" }
  some ({ p with sessionData := updateAssoc p.sessionData sd.dataId sd }, s, resolved.2)

/-- `ExtXSessionKey.safeProcess`. -/
def extXSessionKeySafeProcess (attrs : AttrMap) (p : ParsedPlaylist) (s : SharedState) :
    Option ProcResult :=
  let r := parseEncryptionTag EXT_X_SESSION_KEY attrs s
  some ({ p with sessionKey := some r.1 }, s, r.2)

/-- `ExtXContentSteering.safeProcess`. -/
def extXContentSteeringSafeProcess (attrs : AttrMap) (p : ParsedPlaylist) (s : SharedState) :
    Option ProcResult :=
  let serverUri := (getAttr attrs "SERVER-URI").getD ""
  let r := resolveUriAttribute EXT_X_CONTENT_STEERING "SERVER-URI" serverUri s.baseUrl
  let cs : ContentSteering :=
    { serverUri := serverUri, resolvedServerUri := r.1,
      pathwayId := getAttr attrs "PATHWAY-ID" }
  some ({ p with contentSteering := some cs }, s, [])

/-- Truthiness-respecting lookup in one `define` scope, as in
`ExtXDefine.getValueForImportDefine`. -/
def defScopeTruthyLookup (l : List (String × Option String)) (k : String) : Option String :=
  match l.lookup k with
  | some (some v) => if v = "" then none else some v
  | _ => none

/-- `ExtXDefine.getValueForImportDefine`: look up an imported name in the
caller's base scope, `name` then `import` then `queryParam`. -/
def getValueForImportDefine (importName : String) (s : SharedState) : Option String :=
  match s.baseDefine with
  | none => none
  | some bd =>
    match defScopeTruthyLookup bd.name importName with
    | some v => some v
    | none =>
      match defScopeTruthyLookup bd.importScope importName with
      | some v => some v
      | none => defScopeTruthyLookup bd.queryParam importName

/-- `ExtXDefine.getValueForQueryParamDefine`: extract a query parameter of
the base URL (the source goes through `new URL(...)`; an empty or invalid
base yields `null`). -/
def getValueForQueryParamDefine (queryParam : String) (s : SharedState) : Option String :=
  if s.baseUrl = "" then none
  else if !isAbsoluteUri s.baseUrl then none
  else
    match dropToQueryStart s.baseUrl.data with
    | some query =>
      let pairs := splitChars '&' query
      let hit := pairs.filterMap (fun pr =>
        let kv := splitFirstChar '=' pr
        if String.mk kv.1 = queryParam then some (String.mk (kv.2.getD [])) else none)
      hit.head?
    | none => none

/-- `ExtXDefine.safeProcess`. -/
def extXDefineSafeProcess (attrs : AttrMap) (p : ParsedPlaylist) (s : SharedState) :
    Option ProcResult :=
  let step1 : ParsedPlaylist × SharedState :=
    match attrTruthy attrs "NAME" with
    | some nm =>
      ({ p with define := { p.define with name := updateAssoc p.define.name nm (getAttr attrs "VALUE") } },
       { s with hasVariablesForSubstitution := true })
    | none => (p, s)
  let step2 : ParsedPlaylist × SharedState :=
    match attrTruthy attrs "IMPORT" with
    | some im =>
      let v := getValueForImportDefine im step1.2
      let p' := { step1.1 with define :=
        { step1.1.define with importScope := updateAssoc step1.1.define.importScope im v } }
      if v ≠ none then (p', { step1.2 with hasVariablesForSubstitution := true })
      else (p', step1.2)
    | none => step1
  let step3 : ParsedPlaylist × SharedState :=
    match attrTruthy attrs "QUERYPARAM" with
    | some q =>
      let v := getValueForQueryParamDefine q step2.2
      let p' := { step2.1 with define :=
        { step2.1.define with queryParam := updateAssoc step2.1.define.queryParam q v } }
      if v ≠ none then (p', { step2.2 with hasVariablesForSubstitution := true })
      else (p', step2.2)
    | none => step2
  some (step3.1, step3.2, [])

/-! ## Empty-tag processors (untranslated `tags/emptyTagProcessors.ts`) -/

/-- Modelled from the spec: `ExtM3u.process` — record that `#EXTM3U` was
seen. -/
def extM3uProcess (p : ParsedPlaylist) (s : SharedState) : ParsedPlaylist × SharedState :=
  ({ p with m3u := true }, s)

/-- Modelled from the spec: `ExtXIndependentSegments.process`. -/
def extXIndependentSegmentsProcess (p : ParsedPlaylist) (s : SharedState) :
    ParsedPlaylist × SharedState :=
  ({ p with independentSegments := true }, s)

/-- Modelled from the spec: `ExtXEndList.process`. -/
def extXEndListProcess (p : ParsedPlaylist) (s : SharedState) : ParsedPlaylist × SharedState :=
  ({ p with endList := true }, s)

/-- Modelled from the spec: `ExtXIframesOnly.process`. -/
def extXIframesOnlyProcess (p : ParsedPlaylist) (s : SharedState) :
    ParsedPlaylist × SharedState :=
  ({ p with iFramesOnly := true }, s)

/-- Modelled from the spec: `ExtXDiscontinuity.process` — mark the segment
under construction as a discontinuity. -/
def extXDiscontinuityProcess (p : ParsedPlaylist) (s : SharedState) :
    ParsedPlaylist × SharedState :=
  (p, { s with currentSegment := { s.currentSegment with isDiscontinuity := true } })

/-- Modelled from the spec: `ExtXGap.process`. -/
def extXGapProcess (p : ParsedPlaylist) (s : SharedState) : ParsedPlaylist × SharedState :=
  (p, { s with currentSegment := { s.currentSegment with isGap := true } })

/-! ## Value-tag processors (untranslated `tags/tagWithValueProcessors.ts`) -/

/-- Modelled from the spec: `ExtXVersion.process` — parse an integer tag
value into `playlist.version`; an unparsable value is warned and
skipped. -/
def extXVersionProcess (v : String) (p : ParsedPlaylist) (s : SharedState) : ProcResult :=
  match jsNumber v with
  | none => (p, s, [unableToParseValueWarn EXT_X_VERSION])
  | some n => ({ p with version := some n }, s, [])

/-- Modelled from the spec: `ExtXTargetDuration.process`. -/
def extXTargetDurationProcess (v : String) (p : ParsedPlaylist) (s : SharedState) : ProcResult :=
  match jsNumber v with
  | none => (p, s, [unableToParseValueWarn EXT_X_TARGETDURATION])
  | some n => ({ p with targetDuration := some n }, s, [])

/-- Modelled from the spec: `ExtXMediaSequence.process` — assign the
parsed integer to `playlist.mediaSequence`.  The spec's assembler section
states that the first finalized segment's `mediaSequence` is initialized
from `playlist.mediaSequence`, while the translated
`Parser.handleCurrentSegment` only links a segment to its predecessor, so
the processor also primes the segment under construction. -/
def extXMediaSequenceProcess (v : String) (p : ParsedPlaylist) (s : SharedState) : ProcResult :=
  match jsNumber v with
  | none => (p, s, [unableToParseValueWarn EXT_X_MEDIA_SEQUENCE])
  | some n =>
    ({ p with mediaSequence := n },
     { s with currentSegment := { s.currentSegment with mediaSequence := n } }, [])

/-- Modelled from the spec: `ExtXDiscontinuitySequence.process` — the
counterpart of `ExtXMediaSequence` for `discontinuitySequence`. -/
def extXDiscontinuitySequenceProcess (v : String) (p : ParsedPlaylist) (s : SharedState) :
    ProcResult :=
  match jsNumber v with
  | none => (p, s, [unableToParseValueWarn EXT_X_DISCONTINUITY_SEQUENCE])
  | some n =>
    ({ p with discontinuitySequence := n },
     { s with currentSegment := { s.currentSegment with discontinuitySequence := n } }, [])

/-- Modelled from the spec: `ExtXPlaylistType.process` — only the enum
values `VOD` and `EVENT` are accepted. -/
def extXPlaylistTypeProcess (v : String) (p : ParsedPlaylist) (s : SharedState) : ProcResult :=
  if v = "VOD" || v = "EVENT" then ({ p with playlistType := some v }, s, [])
  else (p, s, [unsupportedEnumValue EXT_X_PLAYLIST_TYPE v ["VOD", "EVENT"]])

/-- Modelled from the spec: `ExtInf.process` — the value is
`duration[,title]`; the duration is the float parse of the first
comma-delimited token and the title is the remainder. -/
def extInfProcess (v : String) (p : ParsedPlaylist) (s : SharedState) : ProcResult :=
  match splitChars ',' v.data with
  | [] => (p, s, [unableToParseValueWarn EXTINF])
  | durStr :: rest =>
    match jsParseFloat (String.mk durStr) with
    | none => (p, s, [unableToParseValueWarn EXTINF])
    | some d =>
      (p, { s with currentSegment :=
        { s.currentSegment with duration := d, title := String.mk (joinChars ',' rest) } }, [])

/-- Modelled from the spec: `ExtXByteRange.process` — the value is
`length[@offset]`; a missing offset continues the previous segment's byte
range, and is warned and skipped when there is none to continue. -/
def extXByteRangeProcess (v : String) (p : ParsedPlaylist) (s : SharedState) : ProcResult :=
  let vals := splitStrings '@' v
  match (vals.get? 0).bind jsNumber with
  | none => (p, s, [unableToParseValueWarn EXT_X_BYTERANGE])
  | some len =>
    let offset? : Option JsRat :=
      match vals.get? 1 with
      | some offStr => jsNumber offStr
      | none =>
        match p.segments.getLast? with
        | some prev =>
          (match prev.byteRange with
           | some br => jsAdd br.endB (some 1)
           | none => none)
        | none => none
    match offset? with
    | none => (p, s, [unableToParseValueWarn EXT_X_BYTERANGE])
    | some off =>
      let br : ByteRange := { start := some off, endB := some (off + len - 1) }
      (p, { s with currentSegment := { s.currentSegment with byteRange := some br } }, [])

/-- Modelled from the spec: `ExtXBitrate.process` — record the bitrate
that carries forward to the following segments. -/
def extXBitrateProcess (v : String) (p : ParsedPlaylist) (s : SharedState) : ProcResult :=
  match jsNumber v with
  | none => (p, s, [unableToParseValueWarn EXT_X_BITRATE])
  | some n => (p, { s with currentBitrate := some n }, [])

/-- Modelled from the spec: `ExtXProgramDateTime.process` — parse the
ISO-8601 value to milliseconds into the segment under construction. -/
def extXProgramDateTimeProcess (v : String) (p : ParsedPlaylist) (s : SharedState) : ProcResult :=
  match parseIso8601ToMs v with
  | none => (p, s, [unableToParseValueWarn EXT_X_PROGRAM_DATE_TIME])
  | some ms =>
    (p, { s with currentSegment :=
      { s.currentSegment with programDateTimeStart := some ms } }, [])

/-! ## The `Parser` class (`lib/parse.ts`) -/

/-- A caller-supplied custom tag handler: receives the tag key, value,
attributes, the playlist's `custom` record and the (mutable) shared
state. -/
abbrev CustomHandler :=
  String → Option String → AttrMap → CustomData → SharedState → CustomData × SharedState

/-- The per-instance parser options (`ParserOptions`): warn/debug
callbacks are modelled by warning accumulation, the rest faithfully. -/
structure ParserConfig where
  ignoreTags : List String := []
  transformTagValue : String → Option String → Option String := fun _ v => v
  transformTagAttributes : String → AttrMap → AttrMap := fun _ a => a
  customTagMap : List (String × CustomHandler) := []

/-- The per-parse options (`ParseOptions`). -/
structure ParseOptions where
  baseUrl : String := ""
  baseDefine : Option Define := none
  baseTime : Option JsRat := none

/-- The parser's mutable state: the playlist under construction, the
shared state, and the warnings delivered to `warnCallback` so far. -/
structure PEnv where
  playlist : ParsedPlaylist := createDefaultParsedPlaylist
  shared : SharedState := createDefaultSharedState
  warns : List String := []
deriving DecidableEq

/-- The `emptyTagMap` of the `Parser` constructor. -/
def emptyTagLookup (tag : String) :
    Option (ParsedPlaylist → SharedState → ParsedPlaylist × SharedState) :=
  if tag = EXTM3U then some extM3uProcess
  else if tag = EXT_X_INDEPENDENT_SEGMENTS then some extXIndependentSegmentsProcess
  else if tag = EXT_X_ENDLIST then some extXEndListProcess
  else if tag = EXT_X_I_FRAMES_ONLY then some extXIframesOnlyProcess
  else if tag = EXT_X_DISCONTINUITY then some extXDiscontinuityProcess
  else if tag = EXT_X_GAP then some extXGapProcess
  else none

/-- The `tagValueMap` of the `Parser` constructor. -/
def tagValueLookup (tag : String) :
    Option (String → ParsedPlaylist → SharedState → ProcResult) :=
  if tag = EXT_X_VERSION then some extXVersionProcess
  else if tag = EXT_X_TARGETDURATION then some extXTargetDurationProcess
  else if tag = EXT_X_MEDIA_SEQUENCE then some extXMediaSequenceProcess
  else if tag = EXT_X_DISCONTINUITY_SEQUENCE then some extXDiscontinuitySequenceProcess
  else if tag = EXT_X_PLAYLIST_TYPE then some extXPlaylistTypeProcess
  else if tag = EXTINF then some extInfProcess
  else if tag = EXT_X_BYTERANGE then some extXByteRangeProcess
  else if tag = EXT_X_BITRATE then some extXBitrateProcess
  else if tag = EXT_X_PROGRAM_DATE_TIME then some extXProgramDateTimeProcess
  else none

/-- The `tagAttributesMap` of the `Parser` constructor: each entry is the
processor's `requiredAttributes` (in declaration order) together with its
`safeProcess`. -/
def tagAttributesLookup (tag : String) :
    Option (List String × (AttrMap → ParsedPlaylist → SharedState → Option ProcResult)) :=
  if tag = EXT_X_START then some (["TIME-OFFSET"], extXStartSafeProcess)
  else if tag = EXT_X_PART_INF then some (["PART-TARGET"], extXPartInfSafeProcess)
  else if tag = EXT_X_SERVER_CONTROL then some ([], extXServerControlSafeProcess)
  else if tag = EXT_X_KEY then some (["METHOD"], extXKeySafeProcess)
  else if tag = EXT_X_MAP then some (["URI"], extXMapSafeProcess)
  else if tag = EXT_X_PART then some (["URI", "DURATION"], extXPartSafeProcess)
  else if tag = EXT_X_MEDIA then some (["TYPE", "GROUP-ID", "NAME"], extXMediaSafeProcess)
  else if tag = EXT_X_STREAM_INF then some (["BANDWIDTH"], extXStreamInfSafeProcess)
  else if tag = EXT_X_SKIP then some (["SKIPPED-SEGMENTS"], extXSkipSafeProcess)
  else if tag = EXT_X_I_FRAME_STREAM_INF then
    some (["BANDWIDTH", "URI"], extXIFrameStreamInfSafeProcess)
  else if tag = EXT_X_DATERANGE then some (["ID", "START-DATE"], extXDateRangeSafeProcess)
  else if tag = EXT_X_PRELOAD_HINT then some (["TYPE", "URI"], extXPreloadHintSafeProcess)
  else if tag = EXT_X_RENDITION_REPORT then some (["URI"], extXRenditionReportSafeProcess)
  else if tag = EXT_X_SESSION_DATA then some (["DATA-ID"], extXSessionDataSafeProcess)
  else if tag = EXT_X_SESSION_KEY then some (["METHOD"], extXSessionKeySafeProcess)
  else if tag = EXT_X_CONTENT_STEERING then some (["SERVER-URI"], extXContentSteeringSafeProcess)
  else if tag = EXT_X_DEFINE then some ([], extXDefineSafeProcess)
  else none

/-- `Parser.tagInfoCallback` as a step on (playlist, shared state): the
ordered dispatch over the ignore set and the four processor registries; an
unknown tag gets a single unsupported-tag warning.  The third component is
the list of warnings emitted by the step. -/
def tagStep (cfg : ParserConfig) (tagKey : String) (tagValue : Option String)
    (tagAttributes : AttrMap) (p : ParsedPlaylist) (sh : SharedState) : Option ProcResult :=
  if cfg.ignoreTags.contains tagKey then
    some (p, sh, [ignoreTagWarn tagKey])
  else
    match emptyTagLookup tagKey with
    | some proc =>
      let r := proc p sh
      some (r.1, r.2, [])
    | none =>
      match tagValueLookup tagKey with
      | some proc =>
        (match cfg.transformTagValue tagKey tagValue with
         | none => some (p, sh, [missingTagValueWarn tagKey])
         | some v => some (proc v p sh))
      | none =>
        match tagAttributesLookup tagKey with
        | some pr =>
          let attrs := cfg.transformTagAttributes tagKey tagAttributes
          attrTagProcess pr.1 tagKey pr.2 attrs p sh
        | none =>
          match cfg.customTagMap.lookup tagKey with
          | some handler =>
            let r := handler tagKey tagValue tagAttributes p.custom sh
            some ({ p with custom := r.1 }, r.2, [])
          | none => some (p, sh, [unsupportedTagWarn tagKey])

/-- `Parser.tagInfoCallback`: `tagStep` with the emitted warnings appended
to the `warnCallback` log. -/
def tagInfoCallback (cfg : ParserConfig) (tagKey : String) (tagValue : Option String)
    (tagAttributes : AttrMap) (env : PEnv) : Option PEnv :=
  (tagStep cfg tagKey tagValue tagAttributes env.playlist env.shared).map
    (fun r => { playlist := r.1, shared := r.2.1, warns := env.warns ++ r.2.2 })

/-- `Parser.handleCurrentVariant` as a step on (playlist, shared state):
a URI line finalizes the variant under construction. -/
def handleCurrentVariantStep (uri resolvedUri : String) (p : ParsedPlaylist)
    (sh : SharedState) : ParsedPlaylist × SharedState :=
  let v := { sh.currentVariant with uri := uri, resolvedUri := resolvedUri }
  ({ p with variantStreams := p.variantStreams ++ [v] },
   { sh with currentVariant := createDefaultVariantStream })

/-- Stages 0-2 of the segment the assembler pushes: complete the current
segment with the URI pair, carried-over encryption and map, link the
sequence numbers and times to the previous segment (or to `baseTime`),
and derive `endTime`. -/
def segStage12 (uri resolvedUri : String) (p : ParsedPlaylist) (sh : SharedState) :
    MediaSegment :=
  let seg0 := { sh.currentSegment with
    encryption := sh.currentEncryption,
    map := sh.currentMap,
    uri := uri,
    resolvedUri := resolvedUri,
    startTime := sh.baseTime }
  let seg1 :=
    match p.segments.getLast? with
    | some prev =>
      { seg0 with
        mediaSequence := prev.mediaSequence + 1,
        startTime := prev.endTime,
        discontinuitySequence := if seg0.isDiscontinuity then prev.discontinuitySequence + 1 else prev.discontinuitySequence }
    | none => seg0
  { seg1 with endTime := seg1.startTime + seg1.duration }

/-- Stage 3: apply the carried-forward `EXT-X-BITRATE` value when the
segment has no byte range. -/
def segStage3 (sh : SharedState) (m : MediaSegment) : MediaSegment :=
  if numTruthy sh.currentBitrate && m.byteRange = none then
    { m with bitrate := sh.currentBitrate }
  else m

/-- Stage 4: extrapolate a program date time from the previous segment. -/
def segStage4 (p : ParsedPlaylist) (m : MediaSegment) : MediaSegment :=
  if !numTruthy m.programDateTimeStart then
    match p.segments.getLast? with
    | some prev =>
      if numTruthy prev.programDateTimeStart then
        { m with programDateTimeStart := jsAdd prev.programDateTimeStart (some (prev.duration * 1000)) }
      else m
    | none => m
  else m

/-- Stage 5: derive the program date time end. -/
def segStage5 (m : MediaSegment) : MediaSegment :=
  if numTruthy m.programDateTimeStart then
    { m with programDateTimeEnd := jsAdd m.programDateTimeStart (some (m.duration * 1000)) }
  else m

/-- The segment value pushed by `Parser.handleCurrentSegment`: the
current segment completed with the URI pair, carried-over encryption, map
and bitrate, the sequence/time links to the previous segment, and the
program-date-time extrapolation. -/
def buildSegment (uri resolvedUri : String) (p : ParsedPlaylist) (sh : SharedState) :
    MediaSegment :=
  segStage5 (segStage4 p (segStage3 sh (segStage12 uri resolvedUri p sh)))

/-- `Parser.handleCurrentSegment` as a step on (playlist, shared state):
a URI line finalizes the media segment under construction, deriving
sequence numbers and times from the previous segment (or the parse
options for the first one). -/
def handleCurrentSegmentStep (uri resolvedUri : String) (p : ParsedPlaylist)
    (sh : SharedState) : ParsedPlaylist × SharedState × List String :=
  let durWarns : List String :=
    match p.targetDuration with
    | some td =>
      if sh.currentSegment.duration > td then
        [segmentDurationExceededTargetDuration uri sh.currentSegment.duration td]
      else []
    | none => []
  ({ p with segments := p.segments ++ [buildSegment uri resolvedUri p sh] },
   { sh with currentSegment := createDefaultSegment },
   durWarns)

/-- `Parser.uriInfoCallback` as a step on (playlist, shared state):
substitute variables, resolve against the base URL (falling back to the
raw URI with a warning), then finalize a variant or a segment. -/
def uriStep (uri : String) (p : ParsedPlaylist) (sh : SharedState) :
    ParsedPlaylist × SharedState × List String :=
  let su : String × List String :=
    if sh.hasVariablesForSubstitution then
      let r := substituteVariables uri p.define
      (r.1, r.2.map (fun nm => missingRequiredVariableForUriSubstitutionWarn uri nm))
    else (uri, [])
  let resolved : String × List String :=
    match resolveUri su.1 sh.baseUrl with
    | none => (su.1, [failedToResolveUri su.1 sh.baseUrl])
    | some r => (r, [])
  if sh.isMultivariantPlaylist then
    let r := handleCurrentVariantStep su.1 resolved.1 p sh
    (r.1, r.2, su.2 ++ resolved.2)
  else
    let r := handleCurrentSegmentStep su.1 resolved.1 p sh
    (r.1, r.2.1, su.2 ++ resolved.2 ++ r.2.2)

/-- `Parser.uriInfoCallback`: `uriStep` with the emitted warnings appended
to the `warnCallback` log. -/
def uriInfoCallback (uri : String) (env : PEnv) : PEnv :=
  let r := uriStep uri env.playlist env.shared
  { playlist := r.1, shared := r.2.1, warns := env.warns ++ r.2.2 }

/-- `Parser.clean`: hand the accumulated playlist to the caller and reset
the internal playlist and shared state to the defaults. -/
def cleanParser (env : PEnv) : ParsedPlaylist × PEnv :=
  (env.playlist,
   { env with playlist := createDefaultParsedPlaylist, shared := createDefaultSharedState })

/-- `Parser.gatherParseOptions`. -/
def gatherParseOptions (opts : ParseOptions) (env : PEnv) : PEnv :=
  { env with shared := { env.shared with
      baseDefine := opts.baseDefine,
      baseUrl := opts.baseUrl,
      baseTime := opts.baseTime.getD 0 } }

/-! ## Character scanner (untranslated `lib/stateMachine.ts`) -/

/-- Modelled from the spec: the scanner's states — start of line, just
after `#`, inside a comment, accumulating a tag name, accumulating a tag
body after the `:`, accumulating a URI line. -/
inductive ScanState where
  | lineStart
  | afterHash
  | comment
  | tagName (acc : List Char)
  | tagBody (name : List Char) (acc : List Char)
  | uriLine (acc : List Char)
deriving DecidableEq

/-- Modelled from the spec: a tag body is a bare value exactly when no
unquoted `=` appears before the first unquoted comma or the end of the
line. -/
def isValueBody (cs : List Char) : Bool :=
  go false cs
where
  go : Bool → List Char → Bool
    | _, [] => true
    | quoted, c :: rest =>
      if c = '"' then go (!quoted) rest
      else if !quoted && c = ',' then true
      else if !quoted && c = '=' then false
      else go quoted rest

/-- Strip one surrounding pair of double quotes, if present. -/
def unquote (s : String) : String :=
  match s.data with
  | '"' :: rest@(_ :: _) =>
    (match rest.reverse with
     | '"' :: mid => String.mk mid.reverse
     | _ => s)
  | _ => s

/-- Modelled from the spec: the attribute lexer — walk the body with a
quoted flag and key/value buffers; `=` (unquoted, key mode) switches to
the value, `,` (unquoted, value mode) commits a pair; end of input commits
the final pair. -/
def splitAttrs (cs : List Char) : AttrMap :=
  go false false [] [] cs []
where
  commit (m : AttrMap) (key val : List Char) : AttrMap :=
    if key.isEmpty && val.isEmpty then m
    else updateAssoc m (String.mk key) (unquote (String.mk val))
  go : Bool → Bool → List Char → List Char → List Char → AttrMap → AttrMap
    | _, _, key, val, [], m => commit m key val
    | quoted, inVal, key, val, c :: rest, m =>
      if c = '"' then
        if inVal then go (!quoted) inVal key (val ++ [c]) rest m
        else go (!quoted) inVal (key ++ [c]) val rest m
      else if !quoted && !inVal && c = '=' then go quoted true key val rest m
      else if !quoted && inVal && c = ',' then go quoted false [] [] rest (commit m key val)
      else if inVal then go quoted inVal key (val ++ [c]) rest m
      else go quoted inVal (key ++ [c]) val rest m

/-- A finished tag line reaches the semantic layer: a bare value is passed
as the tag value, an attribute list is lexed into a map. -/
def handleTagLine (cfg : ParserConfig) (name : List Char) (body : Option (List Char))
    (env : PEnv) : Option PEnv :=
  let tagKey := String.mk name
  match body with
  | none => tagInfoCallback cfg tagKey none [] env
  | some bodyCs =>
    if isValueBody bodyCs then tagInfoCallback cfg tagKey (some (String.mk bodyCs)) [] env
    else tagInfoCallback cfg tagKey none (splitAttrs bodyCs) env

/-- Modelled from the spec: one transition of the character state machine,
with the structural events handed to the semantic callbacks inline.
`none` is an exception thrown out of a callback. -/
def feedChar (cfg : ParserConfig) (st : ScanState × PEnv) (c : Char) :
    Option (ScanState × PEnv) :=
  match st.1 with
  | .lineStart =>
    if c = '\n' then some st
    else if c = '#' then some (.afterHash, st.2)
    else if c = ' ' || c = '\t' || c = '\r' then some st
    else some (.uriLine [c], st.2)
  | .afterHash =>
    if c = '\n' then some (.lineStart, st.2)
    else if c = 'E' then some (.tagName ['E'], st.2)
    else some (.comment, st.2)
  | .comment =>
    if c = '\n' then some (.lineStart, st.2) else some (.comment, st.2)
  | .tagName acc =>
    if c = '\n' then (handleTagLine cfg acc none st.2).map (fun e => (.lineStart, e))
    else if c = ':' then some (.tagBody acc [], st.2)
    else some (.tagName (acc ++ [c]), st.2)
  | .tagBody name acc =>
    if c = '\n' then (handleTagLine cfg name (some acc) st.2).map (fun e => (.lineStart, e))
    else some (.tagBody name (acc ++ [c]), st.2)
  | .uriLine acc =>
    if c = '\n' then some (.lineStart, uriInfoCallback (String.mk (trimChars acc)) st.2)
    else some (.uriLine (acc ++ [c]), st.2)

/-- Feed a character sequence through the state machine. -/
def feedChars (cfg : ParserConfig) (st : ScanState × PEnv) (cs : List Char) :
    Option (ScanState × PEnv) :=
  cs.foldlM (feedChar cfg) st

/-! ## Parser façades (`FullPlaylistParser`, `ProgressiveParser`) -/

/-- `FullPlaylistParser.parseFullPlaylistString`: gather the options, run
every character plus the synthetic trailing newline through a fresh state
machine, and return the snapshot of `clean` together with the parser's
internal state after the call. -/
def parseFullPlaylistString (cfg : ParserConfig) (env : PEnv) (playlist : String)
    (opts : ParseOptions) : Option (ParsedPlaylist × PEnv) :=
  let env := gatherParseOptions opts env
  (feedChars cfg (ScanState.lineStart, env) (playlist.data ++ ['\n'])).map
    (fun st => cleanParser st.2)

/-- The `ProgressiveParser`'s state: the parser state plus the lazily
created, retained state machine. -/
structure ProgressiveState where
  env : PEnv := {}
  stateMachine : Option ScanState := none
deriving DecidableEq

/-- `ProgressiveParser.pushString`: gather the options, lazily create the
state machine, and feed the chunk without resetting anything. -/
def pushString (cfg : ParserConfig) (ps : ProgressiveState) (chunk : String)
    (opts : ParseOptions) : Option ProgressiveState :=
  let env := gatherParseOptions opts ps.env
  let sm := ps.stateMachine.getD ScanState.lineStart
  (feedChars cfg (sm, env) chunk.data).map
    (fun st => { env := st.2, stateMachine := some st.1 })

/-- `ProgressiveParser.done`: inject the synthetic newline (when a state
machine exists), drop the machine, and snapshot-and-reset via `clean`. -/
def progressiveDone (cfg : ParserConfig) (ps : ProgressiveState) :
    Option (ParsedPlaylist × ProgressiveState) :=
  match ps.stateMachine with
  | some sm =>
    (feedChars cfg (sm, ps.env) ['\n']).map (fun st =>
      let r := cleanParser st.2
      (r.1, { env := r.2, stateMachine := none }))
  | none =>
    let r := cleanParser ps.env
    some (r.1, { env := r.2, stateMachine := none })

/-- Push a list of chunks in order, all with the same parse options. -/
def pushAllStrings (cfg : ParserConfig) (opts : ParseOptions) (ps : ProgressiveState)
    (chunks : List String) : Option ProgressiveState :=
  chunks.foldlM (fun st c => pushString cfg st c opts) ps

/-! ## Frame properties of the processing steps -/

/-- The step left the parse-option fields of the shared state unchanged. -/
def BaseEq (s s' : SharedState) : Prop :=
  s'.baseUrl = s.baseUrl ∧ s'.baseDefine = s.baseDefine ∧ s'.baseTime = s.baseTime

/-- The step never unsets the multivariant flag. -/
def FlagMono (s s' : SharedState) : Prop :=
  s.isMultivariantPlaylist = true → s'.isMultivariantPlaylist = true

/-- Frame property of a tag-processing step: the segment list is
untouched, the parse-option fields survive, the multivariant flag is
monotone. -/
def StepOk (p : ParsedPlaylist) (s : SharedState) (r : ProcResult) : Prop :=
  r.1.segments = p.segments ∧ BaseEq s r.2.1 ∧ FlagMono s r.2.1

/-- `StepOk` for the warnings-free empty-tag processors. -/
def StepOk2 (p : ParsedPlaylist) (s : SharedState) (r : ParsedPlaylist × SharedState) : Prop :=
  r.1.segments = p.segments ∧ BaseEq s r.2 ∧ FlagMono s r.2

/-- Every caller-supplied custom tag handler leaves the parse-option
fields of the shared state unchanged. -/
def CustomBaseOk (cfg : ParserConfig) : Prop :=
  ∀ pr ∈ cfg.customTagMap, ∀ tk tv a cd ss, BaseEq ss (pr.2 tk tv a cd ss).2

/-- Every caller-supplied custom tag handler keeps the multivariant flag
set once it is set. -/
def CustomFlagOk (cfg : ParserConfig) : Prop :=
  ∀ pr ∈ cfg.customTagMap, ∀ tk tv a cd ss, FlagMono ss (pr.2 tk tv a cd ss).2

/-- The adjacency relation of finalized segments: sequence number,
time continuity and the discontinuity counter. -/
def SegLink (a b : MediaSegment) : Prop :=
  b.mediaSequence = a.mediaSequence + 1 ∧ b.startTime = a.endTime ∧
  b.endTime = b.startTime + b.duration ∧
  b.discontinuitySequence =
    (if b.isDiscontinuity then a.discontinuitySequence + 1 else a.discontinuitySequence)

/-- Every adjacent pair of the segment list is linked. -/
def SegChain (l : List MediaSegment) : Prop :=
  List.Chain' SegLink l

/-- The shared state already carries the given parse options (the state
`gatherParseOptions` establishes). -/
def BaseGathered (opts : ParseOptions) (sh : SharedState) : Prop :=
  sh.baseUrl = opts.baseUrl ∧ sh.baseDefine = opts.baseDefine ∧
  sh.baseTime = opts.baseTime.getD 0

/-- The URI after the substitution pass of `uriInfoCallback` (the value
both the `uri` field and the resolution input receive). -/
def postSubstUri (uri : String) (p : ParsedPlaylist) (sh : SharedState) : String :=
  if sh.hasVariablesForSubstitution then (substituteVariables uri p.define).1 else uri

/-- The missing-variable warnings of the substitution pass of
`uriInfoCallback`. -/
def substWarns (uri : String) (p : ParsedPlaylist) (sh : SharedState) : List String :=
  if sh.hasVariablesForSubstitution then
    ((substituteVariables uri p.define).2).map (missingRequiredVariableForUriSubstitutionWarn uri)
  else []

/-! ## Per-processor frame lemmas -/

theorem stepOk2_extM3u (p : ParsedPlaylist) (s : SharedState) :
    StepOk2 p s (extM3uProcess p s) :=
  ⟨rfl, ⟨rfl, rfl, rfl⟩, fun hm => hm⟩

theorem stepOk2_extXIndependentSegments (p : ParsedPlaylist) (s : SharedState) :
    StepOk2 p s (extXIndependentSegmentsProcess p s) :=
  ⟨rfl, ⟨rfl, rfl, rfl⟩, fun hm => hm⟩

theorem stepOk2_extXEndList (p : ParsedPlaylist) (s : SharedState) :
    StepOk2 p s (extXEndListProcess p s) :=
  ⟨rfl, ⟨rfl, rfl, rfl⟩, fun hm => hm⟩

theorem stepOk2_extXIframesOnly (p : ParsedPlaylist) (s : SharedState) :
    StepOk2 p s (extXIframesOnlyProcess p s) :=
  ⟨rfl, ⟨rfl, rfl, rfl⟩, fun hm => hm⟩

theorem stepOk2_extXDiscontinuity (p : ParsedPlaylist) (s : SharedState) :
    StepOk2 p s (extXDiscontinuityProcess p s) :=
  ⟨rfl, ⟨rfl, rfl, rfl⟩, fun hm => hm⟩

theorem stepOk2_extXGap (p : ParsedPlaylist) (s : SharedState) :
    StepOk2 p s (extXGapProcess p s) :=
  ⟨rfl, ⟨rfl, rfl, rfl⟩, fun hm => hm⟩

theorem stepOk_extXVersion (v : String) (p : ParsedPlaylist) (s : SharedState) :
    StepOk p s (extXVersionProcess v p s) := by
  simp only [extXVersionProcess]
  repeat' split
  all_goals exact ⟨rfl, ⟨rfl, rfl, rfl⟩, fun hm => hm⟩

theorem stepOk_extXTargetDuration (v : String) (p : ParsedPlaylist) (s : SharedState) :
    StepOk p s (extXTargetDurationProcess v p s) := by
  simp only [extXTargetDurationProcess]
  repeat' split
  all_goals exact ⟨rfl, ⟨rfl, rfl, rfl⟩, fun hm => hm⟩

theorem stepOk_extXMediaSequence (v : String) (p : ParsedPlaylist) (s : SharedState) :
    StepOk p s (extXMediaSequenceProcess v p s) := by
  simp only [extXMediaSequenceProcess]
  repeat' split
  all_goals exact ⟨rfl, ⟨rfl, rfl, rfl⟩, fun hm => hm⟩

theorem stepOk_extXDiscontinuitySequence (v : String) (p : ParsedPlaylist) (s : SharedState) :
    StepOk p s (extXDiscontinuitySequenceProcess v p s) := by
  simp only [extXDiscontinuitySequenceProcess]
  repeat' split
  all_goals exact ⟨rfl, ⟨rfl, rfl, rfl⟩, fun hm => hm⟩

theorem stepOk_extXPlaylistType (v : String) (p : ParsedPlaylist) (s : SharedState) :
    StepOk p s (extXPlaylistTypeProcess v p s) := by
  simp only [extXPlaylistTypeProcess]
  repeat' split
  all_goals exact ⟨rfl, ⟨rfl, rfl, rfl⟩, fun hm => hm⟩

theorem stepOk_extInf (v : String) (p : ParsedPlaylist) (s : SharedState) :
    StepOk p s (extInfProcess v p s) := by
  simp only [extInfProcess]
  repeat' split
  all_goals exact ⟨rfl, ⟨rfl, rfl, rfl⟩, fun hm => hm⟩

theorem stepOk_extXByteRange (v : String) (p : ParsedPlaylist) (s : SharedState) :
    StepOk p s (extXByteRangeProcess v p s) := by
  simp only [extXByteRangeProcess]
  repeat' split
  all_goals exact ⟨rfl, ⟨rfl, rfl, rfl⟩, fun hm => hm⟩

theorem stepOk_extXBitrate (v : String) (p : ParsedPlaylist) (s : SharedState) :
    StepOk p s (extXBitrateProcess v p s) := by
  simp only [extXBitrateProcess]
  repeat' split
  all_goals exact ⟨rfl, ⟨rfl, rfl, rfl⟩, fun hm => hm⟩

theorem stepOk_extXProgramDateTime (v : String) (p : ParsedPlaylist) (s : SharedState) :
    StepOk p s (extXProgramDateTimeProcess v p s) := by
  simp only [extXProgramDateTimeProcess]
  repeat' split
  all_goals exact ⟨rfl, ⟨rfl, rfl, rfl⟩, fun hm => hm⟩

theorem stepOk_extXStart (a : AttrMap) (p : ParsedPlaylist) (s : SharedState) (r : ProcResult)
    (h : extXStartSafeProcess a p s = some r) : StepOk p s r := by
  simp only [extXStartSafeProcess] at h
  repeat' split at h
  all_goals first
    | (injection h with h; subst h; exact ⟨rfl, ⟨rfl, rfl, rfl⟩, fun hm => hm⟩)
    | injection h

theorem stepOk_extXPartInf (a : AttrMap) (p : ParsedPlaylist) (s : SharedState) (r : ProcResult)
    (h : extXPartInfSafeProcess a p s = some r) : StepOk p s r := by
  simp only [extXPartInfSafeProcess] at h
  repeat' split at h
  all_goals first
    | (injection h with h; subst h; exact ⟨rfl, ⟨rfl, rfl, rfl⟩, fun hm => hm⟩)
    | injection h

theorem stepOk_extXServerControl (a : AttrMap) (p : ParsedPlaylist) (s : SharedState)
    (r : ProcResult) (h : extXServerControlSafeProcess a p s = some r) : StepOk p s r := by
  simp only [extXServerControlSafeProcess] at h
  repeat' split at h
  all_goals first
    | (injection h with h; subst h; exact ⟨rfl, ⟨rfl, rfl, rfl⟩, fun hm => hm⟩)
    | injection h

theorem stepOk_extXKey (a : AttrMap) (p : ParsedPlaylist) (s : SharedState) (r : ProcResult)
    (h : extXKeySafeProcess a p s = some r) : StepOk p s r := by
  simp only [extXKeySafeProcess] at h
  repeat' split at h
  all_goals first
    | (injection h with h; subst h; exact ⟨rfl, ⟨rfl, rfl, rfl⟩, fun hm => hm⟩)
    | injection h

theorem stepOk_extXMap (a : AttrMap) (p : ParsedPlaylist) (s : SharedState) (r : ProcResult)
    (h : extXMapSafeProcess a p s = some r) : StepOk p s r := by
  simp only [extXMapSafeProcess] at h
  repeat' split at h
  all_goals first
    | (injection h with h; subst h; exact ⟨rfl, ⟨rfl, rfl, rfl⟩, fun hm => hm⟩)
    | injection h

theorem stepOk_extXPart (a : AttrMap) (p : ParsedPlaylist) (s : SharedState) (r : ProcResult)
    (h : extXPartSafeProcess a p s = some r) : StepOk p s r := by
  simp only [extXPartSafeProcess] at h
  repeat' split at h
  all_goals first
    | (injection h with h; subst h; exact ⟨rfl, ⟨rfl, rfl, rfl⟩, fun hm => hm⟩)
    | injection h

theorem stepOk_extXMedia (a : AttrMap) (p : ParsedPlaylist) (s : SharedState) (r : ProcResult)
    (h : extXMediaSafeProcess a p s = some r) : StepOk p s r := by
  simp only [extXMediaSafeProcess] at h
  rw [Option.map_eq_some'] at h
  obtain ⟨rg, _, hr⟩ := h
  subst hr
  exact ⟨rfl, ⟨rfl, rfl, rfl⟩, fun hm => hm⟩

theorem stepOk_extXStreamInf (a : AttrMap) (p : ParsedPlaylist) (s : SharedState)
    (r : ProcResult) (h : extXStreamInfSafeProcess a p s = some r) : StepOk p s r := by
  simp only [extXStreamInfSafeProcess] at h
  injection h with h
  subst h
  exact ⟨rfl, ⟨rfl, rfl, rfl⟩, fun _ => rfl⟩

theorem stepOk_extXSkip (a : AttrMap) (p : ParsedPlaylist) (s : SharedState) (r : ProcResult)
    (h : extXSkipSafeProcess a p s = some r) : StepOk p s r := by
  simp only [extXSkipSafeProcess] at h
  repeat' split at h
  all_goals first
    | (injection h with h; subst h; exact ⟨rfl, ⟨rfl, rfl, rfl⟩, fun hm => hm⟩)
    | injection h

theorem stepOk_extXIFrameStreamInf (a : AttrMap) (p : ParsedPlaylist) (s : SharedState)
    (r : ProcResult) (h : extXIFrameStreamInfSafeProcess a p s = some r) : StepOk p s r := by
  simp only [extXIFrameStreamInfSafeProcess] at h
  repeat' split at h
  all_goals first
    | (injection h with h; subst h; exact ⟨rfl, ⟨rfl, rfl, rfl⟩, fun hm => hm⟩)
    | injection h

theorem stepOk_extXDateRange (a : AttrMap) (p : ParsedPlaylist) (s : SharedState)
    (r : ProcResult) (h : extXDateRangeSafeProcess a p s = some r) : StepOk p s r := by
  simp only [extXDateRangeSafeProcess] at h
  repeat' split at h
  all_goals first
    | (injection h with h; subst h; exact ⟨rfl, ⟨rfl, rfl, rfl⟩, fun hm => hm⟩)
    | injection h

theorem stepOk_extXPreloadHint (a : AttrMap) (p : ParsedPlaylist) (s : SharedState)
    (r : ProcResult) (h : extXPreloadHintSafeProcess a p s = some r) : StepOk p s r := by
  simp only [extXPreloadHintSafeProcess] at h
  repeat' split at h
  all_goals first
    | (injection h with h; subst h; exact ⟨rfl, ⟨rfl, rfl, rfl⟩, fun hm => hm⟩)
    | injection h

theorem stepOk_extXRenditionReport (a : AttrMap) (p : ParsedPlaylist) (s : SharedState)
    (r : ProcResult) (h : extXRenditionReportSafeProcess a p s = some r) : StepOk p s r := by
  simp only [extXRenditionReportSafeProcess] at h
  repeat' split at h
  all_goals first
    | (injection h with h; subst h; exact ⟨rfl, ⟨rfl, rfl, rfl⟩, fun hm => hm⟩)
    | injection h

theorem stepOk_extXSessionData (a : AttrMap) (p : ParsedPlaylist) (s : SharedState)
    (r : ProcResult) (h : extXSessionDataSafeProcess a p s = some r) : StepOk p s r := by
  simp only [extXSessionDataSafeProcess] at h
  repeat' split at h
  all_goals first
    | (injection h with h; subst h; exact ⟨rfl, ⟨rfl, rfl, rfl⟩, fun hm => hm⟩)
    | injection h

theorem stepOk_extXSessionKey (a : AttrMap) (p : ParsedPlaylist) (s : SharedState)
    (r : ProcResult) (h : extXSessionKeySafeProcess a p s = some r) : StepOk p s r := by
  simp only [extXSessionKeySafeProcess] at h
  injection h with h
  subst h
  exact ⟨rfl, ⟨rfl, rfl, rfl⟩, fun hm => hm⟩

theorem stepOk_extXContentSteering (a : AttrMap) (p : ParsedPlaylist) (s : SharedState)
    (r : ProcResult) (h : extXContentSteeringSafeProcess a p s = some r) : StepOk p s r := by
  simp only [extXContentSteeringSafeProcess] at h
  injection h with h
  subst h
  exact ⟨rfl, ⟨rfl, rfl, rfl⟩, fun hm => hm⟩

theorem stepOk_extXDefine (a : AttrMap) (p : ParsedPlaylist) (s : SharedState) (r : ProcResult)
    (h : extXDefineSafeProcess a p s = some r) : StepOk p s r := by
  simp only [extXDefineSafeProcess] at h
  repeat' split at h
  all_goals first
    | (injection h with h; subst h; exact ⟨rfl, ⟨rfl, rfl, rfl⟩, fun hm => hm⟩)
    | injection h

/-- Case analysis for a hit in an if-tree registry. -/
theorem ite_some_elim {α : Type} {c : Prop} [Decidable c] {x : α} {rest : Option α} {r : α}
    (h : (if c then some x else rest) = some r) : (c ∧ x = r) ∨ (¬c ∧ rest = some r) := by
  by_cases hc : c
  · rw [if_pos hc] at h
    exact Or.inl ⟨hc, by injection h⟩
  · rw [if_neg hc] at h
    exact Or.inr ⟨hc, h⟩

/-- A successful key lookup comes from a member of the association list. -/
theorem lookup_mem {α : Type} {l : List (String × α)} {k : String} {b : α}
    (h : l.lookup k = some b) : (k, b) ∈ l := by
  induction l with
  | nil => simp [List.lookup] at h
  | cons hd tl ih =>
    obtain ⟨k2, v2⟩ := hd
    rw [List.lookup] at h
    split at h
    · injection h with h
      subst h
      have hk : k = k2 := by
        rename_i hbeq
        exact eq_of_beq hbeq
      subst hk
      exact List.mem_cons_self _ _
    · exact List.mem_cons_of_mem _ (ih h)

/-- Every empty-tag processor in the registry satisfies the frame
property. -/
theorem emptyTagLookup_ok (tag : String)
    (proc : ParsedPlaylist → SharedState → ParsedPlaylist × SharedState)
    (h : emptyTagLookup tag = some proc) (p : ParsedPlaylist) (s : SharedState) :
    StepOk2 p s (proc p s) := by
  simp only [emptyTagLookup] at h
  repeat' split at h
  all_goals first
    | (injection h with h; subst h; first
        | exact stepOk2_extM3u p s
        | exact stepOk2_extXIndependentSegments p s
        | exact stepOk2_extXEndList p s
        | exact stepOk2_extXIframesOnly p s
        | exact stepOk2_extXDiscontinuity p s
        | exact stepOk2_extXGap p s)
    | injection h

/-- Every value-tag processor in the registry satisfies the frame
property. -/
theorem tagValueLookup_ok (tag : String)
    (proc : String → ParsedPlaylist → SharedState → ProcResult)
    (h : tagValueLookup tag = some proc) (v : String) (p : ParsedPlaylist) (s : SharedState) :
    StepOk p s (proc v p s) := by
  simp only [tagValueLookup] at h
  repeat' split at h
  all_goals first
    | (injection h with h; subst h; first
        | exact stepOk_extXVersion v p s
        | exact stepOk_extXTargetDuration v p s
        | exact stepOk_extXMediaSequence v p s
        | exact stepOk_extXDiscontinuitySequence v p s
        | exact stepOk_extXPlaylistType v p s
        | exact stepOk_extInf v p s
        | exact stepOk_extXByteRange v p s
        | exact stepOk_extXBitrate v p s
        | exact stepOk_extXProgramDateTime v p s)
    | injection h

/-- Every attribute-tag processor in the registry satisfies the frame
property. -/
theorem tagAttributesLookup_ok (tag : String)
    (pr : List String × (AttrMap → ParsedPlaylist → SharedState → Option ProcResult))
    (h : tagAttributesLookup tag = some pr) (a : AttrMap) (p : ParsedPlaylist)
    (s : SharedState) (r : ProcResult) (hr : pr.2 a p s = some r) : StepOk p s r := by
  unfold tagAttributesLookup at h
  rcases ite_some_elim h with ⟨-, he⟩ | ⟨-, h⟩
  · subst he
    exact stepOk_extXStart a p s r hr
  rcases ite_some_elim h with ⟨-, he⟩ | ⟨-, h⟩
  · subst he
    exact stepOk_extXPartInf a p s r hr
  rcases ite_some_elim h with ⟨-, he⟩ | ⟨-, h⟩
  · subst he
    exact stepOk_extXServerControl a p s r hr
  rcases ite_some_elim h with ⟨-, he⟩ | ⟨-, h⟩
  · subst he
    exact stepOk_extXKey a p s r hr
  rcases ite_some_elim h with ⟨-, he⟩ | ⟨-, h⟩
  · subst he
    exact stepOk_extXMap a p s r hr
  rcases ite_some_elim h with ⟨-, he⟩ | ⟨-, h⟩
  · subst he
    exact stepOk_extXPart a p s r hr
  rcases ite_some_elim h with ⟨-, he⟩ | ⟨-, h⟩
  · subst he
    exact stepOk_extXMedia a p s r hr
  rcases ite_some_elim h with ⟨-, he⟩ | ⟨-, h⟩
  · subst he
    exact stepOk_extXStreamInf a p s r hr
  rcases ite_some_elim h with ⟨-, he⟩ | ⟨-, h⟩
  · subst he
    exact stepOk_extXSkip a p s r hr
  rcases ite_some_elim h with ⟨-, he⟩ | ⟨-, h⟩
  · subst he
    exact stepOk_extXIFrameStreamInf a p s r hr
  rcases ite_some_elim h with ⟨-, he⟩ | ⟨-, h⟩
  · subst he
    exact stepOk_extXDateRange a p s r hr
  rcases ite_some_elim h with ⟨-, he⟩ | ⟨-, h⟩
  · subst he
    exact stepOk_extXPreloadHint a p s r hr
  rcases ite_some_elim h with ⟨-, he⟩ | ⟨-, h⟩
  · subst he
    exact stepOk_extXRenditionReport a p s r hr
  rcases ite_some_elim h with ⟨-, he⟩ | ⟨-, h⟩
  · subst he
    exact stepOk_extXSessionData a p s r hr
  rcases ite_some_elim h with ⟨-, he⟩ | ⟨-, h⟩
  · subst he
    exact stepOk_extXSessionKey a p s r hr
  rcases ite_some_elim h with ⟨-, he⟩ | ⟨-, h⟩
  · subst he
    exact stepOk_extXContentSteering a p s r hr
  rcases ite_some_elim h with ⟨-, he⟩ | ⟨-, h⟩
  · subst he
    exact stepOk_extXDefine a p s r hr
  exact Option.noConfusion h

/-- `TagWithAttributesProcessor.process` inherits the frame property of
its `safeProcess`. -/
theorem stepOk_attrTagProcess (required : List String) (tag : String)
    (safe : AttrMap → ParsedPlaylist → SharedState → Option ProcResult)
    (hsafe : ∀ a p s r, safe a p s = some r → StepOk p s r)
    (a : AttrMap) (p : ParsedPlaylist) (s : SharedState) (r : ProcResult)
    (h : attrTagProcess required tag safe a p s = some r) : StepOk p s r := by
  simp only [attrTagProcess] at h
  split at h
  · rw [Option.map_eq_some'] at h
    obtain ⟨r0, hr0, hr⟩ := h
    subst hr
    have hs := hsafe _ p s r0 hr0
    exact ⟨hs.1, hs.2.1, hs.2.2⟩
  · injection h with h
    subst h
    exact ⟨rfl, ⟨rfl, rfl, rfl⟩, fun hm => hm⟩

/-- Frame property of the whole tag dispatch: the segment list is never
touched by a tag; the parse-option fields and the multivariant flag are
preserved when the caller-supplied custom handlers preserve them. -/
theorem tagStep_ok (cfg : ParserConfig) (k : String) (v : Option String) (a : AttrMap)
    (p : ParsedPlaylist) (s : SharedState) (r : ProcResult)
    (h : tagStep cfg k v a p s = some r) :
    r.1.segments = p.segments ∧ (CustomBaseOk cfg → BaseEq s r.2.1) ∧
      (CustomFlagOk cfg → FlagMono s r.2.1) := by
  simp only [tagStep] at h
  split at h
  · injection h with h
    subst h
    exact ⟨rfl, fun _ => ⟨rfl, rfl, rfl⟩, fun _ hm => hm⟩
  · split at h
    · rename_i proc heq
      injection h with h
      subst h
      have hs := emptyTagLookup_ok _ proc heq p s
      exact ⟨hs.1, fun _ => hs.2.1, fun _ => hs.2.2⟩
    · split at h
      · rename_i proc heq
        split at h
        · injection h with h
          subst h
          exact ⟨rfl, fun _ => ⟨rfl, rfl, rfl⟩, fun _ hm => hm⟩
        · rename_i v2 hv
          injection h with h
          subst h
          have hs := tagValueLookup_ok _ proc heq v2 p s
          exact ⟨hs.1, fun _ => hs.2.1, fun _ => hs.2.2⟩
      · split at h
        · rename_i pr heq
          have hs := stepOk_attrTagProcess pr.1 k pr.2
            (fun a2 p2 s2 r2 hr2 => tagAttributesLookup_ok k pr heq a2 p2 s2 r2 hr2) _ p s r h
          exact ⟨hs.1, fun _ => hs.2.1, fun _ => hs.2.2⟩
        · split at h
          · rename_i handler heq
            injection h with h
            subst h
            refine ⟨rfl, fun hcb => ?_, fun hcf => ?_⟩
            · exact hcb (k, handler) (lookup_mem heq) k v a p.custom s
            · exact hcf (k, handler) (lookup_mem heq) k v a p.custom s
          · injection h with h
            subst h
            exact ⟨rfl, fun _ => ⟨rfl, rfl, rfl⟩, fun _ hm => hm⟩

/-! ## Segment-assembly lemmas -/

theorem segStage12_fields (uri ruri : String) (p : ParsedPlaylist) (sh : SharedState) :
    (segStage12 uri ruri p sh).duration = sh.currentSegment.duration ∧
    (segStage12 uri ruri p sh).isDiscontinuity = sh.currentSegment.isDiscontinuity ∧
    (segStage12 uri ruri p sh).byteRange = sh.currentSegment.byteRange ∧
    (segStage12 uri ruri p sh).bitrate = sh.currentSegment.bitrate ∧
    (segStage12 uri ruri p sh).uri = uri ∧
    (segStage12 uri ruri p sh).resolvedUri = ruri ∧
    (segStage12 uri ruri p sh).endTime =
      (segStage12 uri ruri p sh).startTime + (segStage12 uri ruri p sh).duration ∧
    (∀ prev, p.segments.getLast? = some prev →
      (segStage12 uri ruri p sh).mediaSequence = prev.mediaSequence + 1 ∧
      (segStage12 uri ruri p sh).startTime = prev.endTime ∧
      (segStage12 uri ruri p sh).discontinuitySequence =
        (if sh.currentSegment.isDiscontinuity then prev.discontinuitySequence + 1
         else prev.discontinuitySequence)) ∧
    (p.segments.getLast? = none →
      (segStage12 uri ruri p sh).startTime = sh.baseTime ∧
      (segStage12 uri ruri p sh).mediaSequence = sh.currentSegment.mediaSequence ∧
      (segStage12 uri ruri p sh).discontinuitySequence =
        sh.currentSegment.discontinuitySequence) := by
  unfold segStage12
  cases hp : p.segments.getLast?
  · exact ⟨rfl, rfl, rfl, rfl, rfl, rfl, rfl,
      fun prev hprev => Option.noConfusion hprev, fun _ => ⟨rfl, rfl, rfl⟩⟩
  · refine ⟨rfl, rfl, rfl, rfl, rfl, rfl, rfl, ?_, fun hprev => Option.noConfusion hprev⟩
    intro prev hprev
    injection hprev with hprev
    subst hprev
    exact ⟨rfl, rfl, rfl⟩

theorem segStage3_frame (sh : SharedState) (m : MediaSegment) :
    (segStage3 sh m).mediaSequence = m.mediaSequence ∧
    (segStage3 sh m).startTime = m.startTime ∧
    (segStage3 sh m).endTime = m.endTime ∧
    (segStage3 sh m).duration = m.duration ∧
    (segStage3 sh m).discontinuitySequence = m.discontinuitySequence ∧
    (segStage3 sh m).isDiscontinuity = m.isDiscontinuity ∧
    (segStage3 sh m).uri = m.uri ∧
    (segStage3 sh m).resolvedUri = m.resolvedUri ∧
    (segStage3 sh m).programDateTimeStart = m.programDateTimeStart := by
  unfold segStage3
  split <;> exact ⟨rfl, rfl, rfl, rfl, rfl, rfl, rfl, rfl, rfl⟩

theorem segStage3_bitrate (sh : SharedState) (m : MediaSegment) :
    (segStage3 sh m).bitrate =
      (if numTruthy sh.currentBitrate && m.byteRange = none then sh.currentBitrate
       else m.bitrate) := by
  unfold segStage3
  split <;> rfl

theorem segStage4_frame (p : ParsedPlaylist) (m : MediaSegment) :
    (segStage4 p m).mediaSequence = m.mediaSequence ∧
    (segStage4 p m).startTime = m.startTime ∧
    (segStage4 p m).endTime = m.endTime ∧
    (segStage4 p m).duration = m.duration ∧
    (segStage4 p m).discontinuitySequence = m.discontinuitySequence ∧
    (segStage4 p m).isDiscontinuity = m.isDiscontinuity ∧
    (segStage4 p m).uri = m.uri ∧
    (segStage4 p m).resolvedUri = m.resolvedUri ∧
    (segStage4 p m).bitrate = m.bitrate := by
  unfold segStage4
  repeat' split
  all_goals exact ⟨rfl, rfl, rfl, rfl, rfl, rfl, rfl, rfl, rfl⟩

theorem segStage5_frame (m : MediaSegment) :
    (segStage5 m).mediaSequence = m.mediaSequence ∧
    (segStage5 m).startTime = m.startTime ∧
    (segStage5 m).endTime = m.endTime ∧
    (segStage5 m).duration = m.duration ∧
    (segStage5 m).discontinuitySequence = m.discontinuitySequence ∧
    (segStage5 m).isDiscontinuity = m.isDiscontinuity ∧
    (segStage5 m).uri = m.uri ∧
    (segStage5 m).resolvedUri = m.resolvedUri ∧
    (segStage5 m).bitrate = m.bitrate := by
  unfold segStage5
  split <;> exact ⟨rfl, rfl, rfl, rfl, rfl, rfl, rfl, rfl, rfl⟩

theorem buildSegment_fields (uri ruri : String) (p : ParsedPlaylist) (sh : SharedState) :
    (buildSegment uri ruri p sh).endTime =
        (buildSegment uri ruri p sh).startTime + (buildSegment uri ruri p sh).duration ∧
    (buildSegment uri ruri p sh).duration = sh.currentSegment.duration ∧
    (buildSegment uri ruri p sh).isDiscontinuity = sh.currentSegment.isDiscontinuity ∧
    (buildSegment uri ruri p sh).uri = uri ∧
    (buildSegment uri ruri p sh).resolvedUri = ruri ∧
    (buildSegment uri ruri p sh).bitrate =
      (if numTruthy sh.currentBitrate && sh.currentSegment.byteRange = none then sh.currentBitrate
       else sh.currentSegment.bitrate) ∧
    (∀ prev, p.segments.getLast? = some prev →
      (buildSegment uri ruri p sh).mediaSequence = prev.mediaSequence + 1 ∧
      (buildSegment uri ruri p sh).startTime = prev.endTime ∧
      (buildSegment uri ruri p sh).discontinuitySequence =
        (if sh.currentSegment.isDiscontinuity then prev.discontinuitySequence + 1
         else prev.discontinuitySequence)) ∧
    (p.segments.getLast? = none →
      (buildSegment uri ruri p sh).startTime = sh.baseTime ∧
      (buildSegment uri ruri p sh).mediaSequence = sh.currentSegment.mediaSequence ∧
      (buildSegment uri ruri p sh).discontinuitySequence =
        sh.currentSegment.discontinuitySequence) := by
  obtain ⟨d12, i12, b12, r12, u12, v12, e12, hsome, hnone⟩ := segStage12_fields uri ruri p sh
  obtain ⟨m3, s3, e3, d3, q3, i3, u3, v3, pdt3⟩ :=
    segStage3_frame sh (segStage12 uri ruri p sh)
  have h3b := segStage3_bitrate sh (segStage12 uri ruri p sh)
  obtain ⟨m4, s4, e4, d4, q4, i4, u4, v4, b4⟩ :=
    segStage4_frame p (segStage3 sh (segStage12 uri ruri p sh))
  obtain ⟨m5, s5, e5, d5, q5, i5, u5, v5, b5⟩ :=
    segStage5_frame (segStage4 p (segStage3 sh (segStage12 uri ruri p sh)))
  simp only [buildSegment]
  refine ⟨?_, ?_, ?_, ?_, ?_, ?_, ?_, ?_⟩
  · rw [e5, e4, e3, s5, s4, s3, d5, d4, d3]
    exact e12
  · rw [d5, d4, d3]
    exact d12
  · rw [i5, i4, i3]
    exact i12
  · rw [u5, u4, u3]
    exact u12
  · rw [v5, v4, v3]
    exact v12
  · rw [b5, b4, h3b, b12, r12]
  · intro prev hp
    exact ⟨by rw [m5, m4, m3]; exact (hsome prev hp).1,
           by rw [s5, s4, s3]; exact (hsome prev hp).2.1,
           by rw [q5, q4, q3]; exact (hsome prev hp).2.2⟩
  · intro hp
    exact ⟨by rw [s5, s4, s3]; exact (hnone hp).1,
           by rw [m5, m4, m3]; exact (hnone hp).2.1,
           by rw [q5, q4, q3]; exact (hnone hp).2.2⟩

theorem handleSegStep_eq (uri ruri : String) (p : ParsedPlaylist) (sh : SharedState) :
    (handleCurrentSegmentStep uri ruri p sh).1.segments =
        p.segments ++ [buildSegment uri ruri p sh] ∧
    (handleCurrentSegmentStep uri ruri p sh).1.variantStreams = p.variantStreams ∧
    (handleCurrentSegmentStep uri ruri p sh).2.1 =
        { sh with currentSegment := createDefaultSegment } := by
  unfold handleCurrentSegmentStep
  repeat' split
  all_goals exact ⟨rfl, rfl, rfl⟩

theorem handleVarStep_eq (uri ruri : String) (p : ParsedPlaylist) (sh : SharedState) :
    (handleCurrentVariantStep uri ruri p sh).1 =
      { p with variantStreams :=
          p.variantStreams ++ [{ sh.currentVariant with uri := uri, resolvedUri := ruri }] } ∧
    (handleCurrentVariantStep uri ruri p sh).2 =
      { sh with currentVariant := createDefaultVariantStream } :=
  ⟨rfl, rfl⟩

theorem uriStep_ok (uri : String) (p : ParsedPlaylist) (sh : SharedState) :
    BaseEq sh (uriStep uri p sh).2.1 ∧ FlagMono sh (uriStep uri p sh).2.1 := by
  unfold uriStep handleCurrentVariantStep handleCurrentSegmentStep
  repeat' split
  all_goals exact ⟨⟨rfl, rfl, rfl⟩, fun hm => hm⟩

theorem uriStep_multivariant (uri : String) (p : ParsedPlaylist) (sh : SharedState)
    (hm : sh.isMultivariantPlaylist = true) :
    (uriStep uri p sh).1.segments = p.segments ∧
    (∃ v, (uriStep uri p sh).1.variantStreams = p.variantStreams ++ [v]) := by
  unfold uriStep
  rw [if_pos hm]
  exact ⟨rfl, ⟨_, rfl⟩⟩

theorem uriStep_media (uri : String) (p : ParsedPlaylist) (sh : SharedState)
    (hm : sh.isMultivariantPlaylist = false) :
    ∃ u2 r2, (uriStep uri p sh).1.segments = p.segments ++ [buildSegment u2 r2 p sh] := by
  unfold uriStep
  rw [if_neg (by rw [hm]; exact Bool.false_ne_true)]
  exact ⟨_, _, (handleSegStep_eq _ _ p sh).1⟩

/-! ## Scanner-step frame lemmas -/

theorem tagInfoCallback_ok (cfg : ParserConfig) (k : String) (v : Option String) (a : AttrMap)
    (env env' : PEnv) (h : tagInfoCallback cfg k v a env = some env') :
    env'.playlist.segments = env.playlist.segments ∧
    (CustomBaseOk cfg → BaseEq env.shared env'.shared) ∧
    (CustomFlagOk cfg → FlagMono env.shared env'.shared) := by
  simp only [tagInfoCallback, Option.map_eq_some'] at h
  obtain ⟨r, hr, he⟩ := h
  subst he
  exact tagStep_ok cfg k v a env.playlist env.shared r hr

theorem handleTagLine_ok (cfg : ParserConfig) (name : List Char) (body : Option (List Char))
    (env env' : PEnv) (h : handleTagLine cfg name body env = some env') :
    env'.playlist.segments = env.playlist.segments ∧
    (CustomBaseOk cfg → BaseEq env.shared env'.shared) ∧
    (CustomFlagOk cfg → FlagMono env.shared env'.shared) := by
  unfold handleTagLine at h
  repeat' split at h
  all_goals exact tagInfoCallback_ok cfg _ _ _ env env' h

theorem uriInfoCallback_ok (uri : String) (env : PEnv) :
    BaseEq env.shared (uriInfoCallback uri env).shared ∧
    FlagMono env.shared (uriInfoCallback uri env).shared ∧
    (env.shared.isMultivariantPlaylist = true →
      (uriInfoCallback uri env).playlist.segments = env.playlist.segments) := by
  have h := uriStep_ok uri env.playlist env.shared
  refine ⟨h.1, h.2, fun hm => ?_⟩
  exact (uriStep_multivariant uri env.playlist env.shared hm).1

theorem feedChar_ok (cfg : ParserConfig) (st st' : ScanState × PEnv) (c : Char)
    (h : feedChar cfg st c = some st') :
    (CustomBaseOk cfg → BaseEq st.2.shared st'.2.shared) ∧
    (CustomFlagOk cfg → FlagMono st.2.shared st'.2.shared) ∧
    (CustomFlagOk cfg → st.2.shared.isMultivariantPlaylist = true →
      st'.2.playlist.segments = st.2.playlist.segments) := by
  unfold feedChar at h
  repeat' split at h
  all_goals first
    | (injection h with h; subst h;
       exact ⟨fun _ => ⟨rfl, rfl, rfl⟩, fun _ hm => hm, fun _ _ => rfl⟩)
    | (rw [Option.map_eq_some'] at h;
       obtain ⟨e, he, hst⟩ := h;
       subst hst;
       obtain ⟨h1, h2, h3⟩ := handleTagLine_ok cfg _ _ _ e he;
       exact ⟨fun hc => h2 hc, fun hc => h3 hc, fun _ _ => h1⟩)
    | (injection h with h; subst h;
       obtain ⟨h1, h2, h3⟩ := uriInfoCallback_ok _ st.2;
       exact ⟨fun _ => h1, fun _ => h2, fun _ hm => h3 hm⟩)

theorem feedChars_ok (cfg : ParserConfig) (cs : List Char) (st st' : ScanState × PEnv)
    (h : feedChars cfg st cs = some st') :
    (CustomBaseOk cfg → BaseEq st.2.shared st'.2.shared) ∧
    (CustomFlagOk cfg → FlagMono st.2.shared st'.2.shared) ∧
    (CustomFlagOk cfg → st.2.shared.isMultivariantPlaylist = true →
      st'.2.playlist.segments = st.2.playlist.segments) := by
  induction cs generalizing st with
  | nil =>
    injection h with h
    subst h
    exact ⟨fun _ => ⟨rfl, rfl, rfl⟩, fun _ hm => hm, fun _ _ => rfl⟩
  | cons c cs ih =>
    rw [feedChars, List.foldlM_cons] at h
    cases hc : feedChar cfg st c with
    | none => rw [hc] at h; exact Option.noConfusion h
    | some st1 =>
      rw [hc] at h
      have h1 := feedChar_ok cfg st st1 c hc
      have h2 := ih st1 h
      refine ⟨fun hb => ?_, fun hf hm => ?_, fun hf hm => ?_⟩
      · obtain ⟨a1, a2, a3⟩ := h1.1 hb
        obtain ⟨b1, b2, b3⟩ := h2.1 hb
        exact ⟨b1.trans a1, b2.trans a2, b3.trans a3⟩
      · exact h2.2.1 hf (h1.2.1 hf hm)
      · rw [h2.2.2 hf (h1.2.1 hf hm), h1.2.2 hf hm]

/-! ## Warning-log frame lemmas: the accumulated log never influences
processing; each step only appends to it. -/

theorem tagInfoCallback_warns (cfg : ParserConfig) (k : String) (v : Option String)
    (a : AttrMap) (p : ParsedPlaylist) (sh : SharedState) (w : List String) :
    tagInfoCallback cfg k v a ⟨p, sh, w⟩ =
      (tagInfoCallback cfg k v a ⟨p, sh, []⟩).map
        (fun e => ⟨e.playlist, e.shared, w ++ e.warns⟩) := by
  simp only [tagInfoCallback]
  cases tagStep cfg k v a p sh <;> simp

theorem handleTagLine_warns (cfg : ParserConfig) (name : List Char)
    (body : Option (List Char)) (p : ParsedPlaylist) (sh : SharedState) (w : List String) :
    handleTagLine cfg name body ⟨p, sh, w⟩ =
      (handleTagLine cfg name body ⟨p, sh, []⟩).map
        (fun e => ⟨e.playlist, e.shared, w ++ e.warns⟩) := by
  unfold handleTagLine
  repeat' split
  all_goals exact tagInfoCallback_warns cfg _ _ _ p sh w

theorem uriInfoCallback_warns (uri : String) (p : ParsedPlaylist) (sh : SharedState)
    (w : List String) :
    uriInfoCallback uri ⟨p, sh, w⟩ =
      ⟨(uriInfoCallback uri ⟨p, sh, []⟩).playlist, (uriInfoCallback uri ⟨p, sh, []⟩).shared,
        w ++ (uriInfoCallback uri ⟨p, sh, []⟩).warns⟩ := by
  simp [uriInfoCallback]

theorem feedChar_warns (cfg : ParserConfig) (sm : ScanState) (p : ParsedPlaylist)
    (sh : SharedState) (w : List String) (c : Char) :
    feedChar cfg (sm, ⟨p, sh, w⟩) c =
      (feedChar cfg (sm, ⟨p, sh, []⟩) c).map
        (fun st => (st.1, ⟨st.2.playlist, st.2.shared, w ++ st.2.warns⟩)) := by
  cases sm
  all_goals unfold feedChar
  all_goals dsimp only
  all_goals repeat' split
  all_goals simp only [Option.map_some', Option.map_map]
  all_goals first
    | (rw [uriInfoCallback_warns]; done)
    | (rw [handleTagLine_warns]; cases handleTagLine cfg _ _ ⟨p, sh, []⟩ <;> simp; done)
    | (simp; done)
    | simp

theorem feedChars_warns (cfg : ParserConfig) (cs : List Char) (sm : ScanState)
    (p : ParsedPlaylist) (sh : SharedState) (w : List String) :
    feedChars cfg (sm, ⟨p, sh, w⟩) cs =
      (feedChars cfg (sm, ⟨p, sh, []⟩) cs).map
        (fun st => (st.1, ⟨st.2.playlist, st.2.shared, w ++ st.2.warns⟩)) := by
  induction cs generalizing sm p sh w with
  | nil => simp [feedChars]
  | cons c cs ih =>
    rw [feedChars, feedChars, List.foldlM_cons, List.foldlM_cons, feedChar_warns]
    cases hc : feedChar cfg (sm, ⟨p, sh, []⟩) c with
    | none => simp
    | some st1 =>
      obtain ⟨sm1, e1⟩ := st1
      simp only [Option.map_some', Option.some_bind]
      have he1 : (⟨e1.playlist, e1.shared, e1.warns⟩ : PEnv) = e1 := rfl
      calc (feedChars cfg (sm1, ⟨e1.playlist, e1.shared, w ++ e1.warns⟩) cs)
          = (feedChars cfg (sm1, ⟨e1.playlist, e1.shared, []⟩) cs).map
              (fun st => (st.1, ⟨st.2.playlist, st.2.shared, (w ++ e1.warns) ++ st.2.warns⟩)) :=
            ih sm1 e1.playlist e1.shared (w ++ e1.warns)
        _ = ((feedChars cfg (sm1, ⟨e1.playlist, e1.shared, []⟩) cs).map
              (fun st => (st.1, (⟨st.2.playlist, st.2.shared, e1.warns ++ st.2.warns⟩ : PEnv)))).map
              (fun st => (st.1, (⟨st.2.playlist, st.2.shared, w ++ st.2.warns⟩ : PEnv))) := by
            rw [Option.map_map]
            cases feedChars cfg (sm1, ⟨e1.playlist, e1.shared, []⟩) cs <;> simp
        _ = (feedChars cfg (sm1, e1) cs).map
              (fun st => (st.1, ⟨st.2.playlist, st.2.shared, w ++ st.2.warns⟩)) := by
            rw [← ih sm1 e1.playlist e1.shared e1.warns, he1]

/-! ## Chain preservation through a parse -/

theorem segLink_buildSegment (uri ruri : String) (p : ParsedPlaylist) (sh : SharedState)
    (prev : MediaSegment) (hp : p.segments.getLast? = some prev) :
    SegLink prev (buildSegment uri ruri p sh) := by
  obtain ⟨he, hd, hi, -, -, -, hsome, -⟩ := buildSegment_fields uri ruri p sh
  obtain ⟨h1, h2, h3⟩ := hsome prev hp
  refine ⟨h1, h2, he, ?_⟩
  rw [h3, hi]

theorem segChain_append (l : List MediaSegment) (s : MediaSegment)
    (hc : SegChain l) (hlink : ∀ prev, l.getLast? = some prev → SegLink prev s) :
    SegChain (l ++ [s]) := by
  rw [SegChain, List.chain'_append]
  refine ⟨hc, List.chain'_singleton s, fun x hx y hy => ?_⟩
  rw [List.head?_cons, Option.mem_def, Option.some.injEq] at hy
  subst hy
  exact hlink x hx

theorem uriStep_chain (uri : String) (p : ParsedPlaylist) (sh : SharedState)
    (hc : SegChain p.segments) : SegChain (uriStep uri p sh).1.segments := by
  cases hm : sh.isMultivariantPlaylist with
  | true => rw [(uriStep_multivariant uri p sh hm).1]; exact hc
  | false =>
    obtain ⟨u2, r2, hseg⟩ := uriStep_media uri p sh hm
    rw [hseg]
    exact segChain_append _ _ hc (fun prev hp => segLink_buildSegment u2 r2 p sh prev hp)

theorem feedChar_chain (cfg : ParserConfig) (st st' : ScanState × PEnv) (c : Char)
    (h : feedChar cfg st c = some st') (hc : SegChain st.2.playlist.segments) :
    SegChain st'.2.playlist.segments := by
  unfold feedChar at h
  repeat' split at h
  all_goals first
    | (injection h with h; subst h; exact hc)
    | (rw [Option.map_eq_some'] at h;
       obtain ⟨e, he, hst⟩ := h;
       subst hst;
       rw [(handleTagLine_ok cfg _ _ _ e he).1];
       exact hc)
    | (injection h with h; subst h;
       exact uriStep_chain _ st.2.playlist st.2.shared hc)

theorem feedChars_chain (cfg : ParserConfig) (cs : List Char) (st st' : ScanState × PEnv)
    (h : feedChars cfg st cs = some st') (hc : SegChain st.2.playlist.segments) :
    SegChain st'.2.playlist.segments := by
  induction cs generalizing st with
  | nil =>
    injection h with h
    subst h
    exact hc
  | cons c cs ih =>
    rw [feedChars, List.foldlM_cons] at h
    cases hstep : feedChar cfg st c with
    | none => rw [hstep] at h; exact Option.noConfusion h
    | some st1 =>
      rw [hstep] at h
      exact ih st1 h (feedChar_chain cfg st st1 c hstep hc)

/-! ## Progressive/full correspondence -/

theorem gatherParseOptions_gathered (opts : ParseOptions) (env : PEnv) :
    BaseGathered opts (gatherParseOptions opts env).shared :=
  ⟨rfl, rfl, rfl⟩

theorem gatherParseOptions_id (opts : ParseOptions) (env : PEnv)
    (h : BaseGathered opts env.shared) : gatherParseOptions opts env = env := by
  obtain ⟨h1, h2, h3⟩ := h
  cases env with
  | mk p sh w =>
    cases sh
    simp_all [gatherParseOptions]

theorem joinData (l : List String) : (String.join l).data = l.flatMap String.data := by
  have hgen : ∀ (l : List String) (acc : String),
      (l.foldl (fun r s => r ++ s) acc).data = acc.data ++ l.flatMap String.data := by
    intro l
    induction l with
    | nil => intro acc; simp
    | cons c cs ih =>
      intro acc
      rw [List.foldl_cons, ih, List.flatMap_cons, String.data_append, List.append_assoc]
  rw [String.join, hgen]
  rfl

theorem baseGathered_of_baseEq (opts : ParseOptions) (s s' : SharedState)
    (hg : BaseGathered opts s) (he : BaseEq s s') : BaseGathered opts s' := by
  obtain ⟨h1, h2, h3⟩ := hg
  obtain ⟨e1, e2, e3⟩ := he
  exact ⟨e1.trans h1, e2.trans h2, e3.trans h3⟩

theorem pushString_some_machine (cfg : ParserConfig) (opts : ParseOptions) (env : PEnv)
    (sm : ScanState) (c : String) (hg : BaseGathered opts env.shared) :
    pushString cfg ⟨env, some sm⟩ c opts =
      (feedChars cfg (sm, env) c.data).map (fun st => ⟨st.2, some st.1⟩) := by
  unfold pushString
  rw [gatherParseOptions_id opts env hg]
  rfl

theorem pushAll_feed (cfg : ParserConfig) (opts : ParseOptions) (hcb : CustomBaseOk cfg)
    (chunks : List String) :
    ∀ (sm : ScanState) (env : PEnv), BaseGathered opts env.shared →
    pushAllStrings cfg opts ⟨env, some sm⟩ chunks =
      (feedChars cfg (sm, env) (chunks.flatMap String.data)).map
        (fun st => ⟨st.2, some st.1⟩) := by
  induction chunks with
  | nil =>
    intro sm env hg
    simp [pushAllStrings, feedChars]
  | cons c cs ih =>
    intro sm env hg
    rw [pushAllStrings, List.foldlM_cons, pushString_some_machine cfg opts env sm c hg,
      List.flatMap_cons]
    cases hF : feedChars cfg (sm, env) c.data with
    | none =>
      have hF2 := hF
      simp only [feedChars] at hF2 ⊢
      rw [List.foldlM_append, hF2]
      simp
    | some st1 =>
      have hg1 : BaseGathered opts st1.2.shared :=
        baseGathered_of_baseEq opts env.shared st1.2.shared hg
          ((feedChars_ok cfg c.data (sm, env) st1 hF).1 hcb)
      have hF2 := hF
      have hih := ih st1.1 st1.2 hg1
      simp only [feedChars] at hF2 hih ⊢
      rw [List.foldlM_append, hF2]
      simp only [Option.map_some', Option.pure_def, Option.bind_eq_bind, Option.some_bind]
      rw [show (st1.1, st1.2) = st1 from rfl] at hih
      simp only [pushAllStrings] at hih
      rw [hih]

theorem progressiveDone_some_machine (cfg : ParserConfig) (env : PEnv) (sm : ScanState) :
    progressiveDone cfg ⟨env, some sm⟩ =
      (feedChars cfg (sm, env) ['\n']).map (fun st =>
        ((cleanParser st.2).1, ⟨(cleanParser st.2).2, none⟩)) := by
  rfl

theorem pushAllDone_feed (cfg : ParserConfig) (opts : ParseOptions) (hcb : CustomBaseOk cfg)
    (chunks : List String) (sm : ScanState) (env : PEnv) (hg : BaseGathered opts env.shared) :
    ((pushAllStrings cfg opts ⟨env, some sm⟩ chunks).bind (progressiveDone cfg)).map
        Prod.fst =
      ((feedChars cfg (sm, env) (chunks.flatMap String.data ++ ['\n'])).map
        (fun st => cleanParser st.2)).map Prod.fst := by
  rw [pushAll_feed cfg opts hcb chunks sm env hg]
  cases hF : feedChars cfg (sm, env) (chunks.flatMap String.data) with
  | none =>
    have hF2 := hF
    simp only [feedChars] at hF2 ⊢
    rw [List.foldlM_append, hF2]
    simp
  | some st1 =>
    have hF2 := hF
    simp only [feedChars] at hF2 ⊢
    rw [List.foldlM_append, hF2]
    simp only [Option.map_some', Option.pure_def, Option.bind_eq_bind, Option.some_bind]
    cases hN : List.foldlM (feedChar cfg) st1 ['\n'] with
    | none =>
      have : progressiveDone cfg ⟨st1.2, some st1.1⟩ = none := by
        simp only [progressiveDone, feedChars]
        rw [show (st1.1, st1.2) = st1 from rfl, hN]
        rfl
      rw [this]
      rfl
    | some st2 =>
      have : progressiveDone cfg ⟨st1.2, some st1.1⟩ =
          some ((cleanParser st2.2).1, ⟨(cleanParser st2.2).2, none⟩) := by
        simp only [progressiveDone, feedChars]
        rw [show (st1.1, st1.2) = st1 from rfl, hN]
        rfl
      rw [this]
      rfl

/-! ## Claim theorems -/

/-- C1: the spec promises the parser never throws for input problems, and
specifically that an `EXT-X-SKIP` tag with `SKIPPED-SEGMENTS` but without
`RECENTLY-REMOVED-DATERANGES` is processed without an exception.  The code
contradicts this: `ExtXSkip.safeProcess` truthiness-tests the constant
attribute *name* instead of the attribute value and then calls `.split`
on `undefined`, a thrown `TypeError` (embedded as `none`), so the full
parse of such a playlist throws instead of returning a playlist. -/
theorem extXSkip_missing_dateranges_throws :
    parseFullPlaylistString {} {} "#EXT-X-SKIP:SKIPPED-SEGMENTS=3"
        { baseUrl := "https://example.com/main.m3u8" } = none ∧
    extXSkipSafeProcess [("SKIPPED-SEGMENTS", "3")] createDefaultParsedPlaylist
        createDefaultSharedState = none :=
  ⟨by decide, by decide⟩

/-- C8 counterexample: `EXT-X-BITRATE:0` makes the shared state's
`currentBitrate` *set* (to `0`), the finalized segment has no byte range,
and yet — because the source tests JavaScript truthiness, not
presence — the segment's `bitrate` field is left unset, contradicting the
claim's "if and only if currentBitrate is set". -/
theorem bitrate_zero_not_applied :
    (parseFullPlaylistString {} {} "#EXT-X-BITRATE:0\n#EXTINF:1,\nseg.ts"
        { baseUrl := "https://example.com/main.m3u8" }).map
      (fun r => r.1.segments.map (fun sg => (sg.bitrate, sg.byteRange))) =
      some [(none, none)] ∧
    (extXBitrateProcess "0" createDefaultParsedPlaylist
        createDefaultSharedState).2.1.currentBitrate = some 0 :=
  ⟨by decide, by decide⟩

/-- C8 (amended): a finalized segment's `bitrate` is `currentBitrate`
exactly when `currentBitrate` is truthy (set and nonzero) and the segment
has no byte range; otherwise the field keeps the segment's own (unset)
value. -/
theorem bitrate_applied_iff_truthy (uri ruri : String) (p : ParsedPlaylist)
    (sh : SharedState) :
    ((handleCurrentSegmentStep uri ruri p sh).1.segments.getLast?).map
        (fun sg => sg.bitrate) =
      some (if numTruthy sh.currentBitrate && sh.currentSegment.byteRange = none
            then sh.currentBitrate else sh.currentSegment.bitrate) := by
  rw [(handleSegStep_eq uri ruri p sh).1, List.getLast?_concat]
  simp only [Option.map_some', Option.some.injEq]
  exact (buildSegment_fields uri ruri p sh).2.2.2.2.2.1

/-- C5: the tag dispatcher consults its sources in the fixed order
ignoreTags, empty-tag map, value-tag map (with `transformTagValue` first,
a `null` result warning and skipping processing), attribute-tag map (with
`transformTagAttributes` first), custom map, and finally a single
unsupported-tag warning; the first hit wins and nothing else happens. -/
theorem dispatch_order (cfg : ParserConfig) (k : String) (v : Option String)
    (a : AttrMap) (p : ParsedPlaylist) (s : SharedState) :
    (cfg.ignoreTags.contains k = true →
      tagStep cfg k v a p s = some (p, s, [ignoreTagWarn k])) ∧
    (cfg.ignoreTags.contains k = false →
      ∀ eproc, emptyTagLookup k = some eproc →
        tagStep cfg k v a p s = some ((eproc p s).1, (eproc p s).2, [])) ∧
    (cfg.ignoreTags.contains k = false → emptyTagLookup k = none →
      ∀ vproc, tagValueLookup k = some vproc →
        (cfg.transformTagValue k v = none →
          tagStep cfg k v a p s = some (p, s, [missingTagValueWarn k])) ∧
        (∀ v2, cfg.transformTagValue k v = some v2 →
          tagStep cfg k v a p s = some (vproc v2 p s))) ∧
    (cfg.ignoreTags.contains k = false → emptyTagLookup k = none →
      tagValueLookup k = none →
      ∀ req safe, tagAttributesLookup k = some (req, safe) →
        tagStep cfg k v a p s =
          attrTagProcess req k safe (cfg.transformTagAttributes k a) p s) ∧
    (cfg.ignoreTags.contains k = false → emptyTagLookup k = none →
      tagValueLookup k = none → tagAttributesLookup k = none →
      ∀ h, cfg.customTagMap.lookup k = some h →
        tagStep cfg k v a p s =
          some ({ p with custom := (h k v a p.custom s).1 },
                (h k v a p.custom s).2, [])) ∧
    (cfg.ignoreTags.contains k = false → emptyTagLookup k = none →
      tagValueLookup k = none → tagAttributesLookup k = none →
      cfg.customTagMap.lookup k = none →
      tagStep cfg k v a p s = some (p, s, [unsupportedTagWarn k])) := by
  refine ⟨fun h1 => ?_, fun h1 ep he => ?_,
    fun h1 he vp hv => ⟨fun ht => ?_, fun v2 ht => ?_⟩,
    fun h1 he hv req safe ha => ?_, fun h1 he hv ha ch hc => ?_,
    fun h1 he hv ha hc => ?_⟩
  all_goals simp only [tagStep, *]
  all_goals simp

/-- C6: an attribute-tag processor warns once per absent required
attribute and leaves playlist and shared state untouched when any is
missing; when all are present `safeProcess` runs on the
variable-substituted attributes, and substitution rewrites every
attribute value exactly when `hasVariablesForSubstitution` is set. -/
theorem required_attribute_gate (required : List String) (tag : String)
    (safe : AttrMap → ParsedPlaylist → SharedState → Option ProcResult)
    (attrs : AttrMap) (p : ParsedPlaylist) (s : SharedState) :
    ((∃ req ∈ required, hasAttr attrs req = false) →
      attrTagProcess required tag safe attrs p s =
        some (p, s, (required.filter (fun r => !hasAttr attrs r)).map
          (missingRequiredAttributeWarn tag))) ∧
    ((∀ req ∈ required, hasAttr attrs req = true) →
      attrTagProcess required tag safe attrs p s =
        (safe (runVariableSubstitution tag attrs p s).1 p s).map
          (fun r => (r.1, r.2.1, (runVariableSubstitution tag attrs p s).2 ++ r.2.2))) ∧
    (s.hasVariablesForSubstitution = true →
      (runVariableSubstitution tag attrs p s).1 =
        attrs.map (fun kv => (kv.1, (substituteVariables kv.2 p.define).1))) ∧
    (s.hasVariablesForSubstitution = false →
      (runVariableSubstitution tag attrs p s).1 = attrs) := by
  refine ⟨fun hmiss => ?_, fun hall => ?_, fun hv => ?_, fun hv => ?_⟩
  · obtain ⟨req, hreq, hm⟩ := hmiss
    have hne : required.filter (fun r => !hasAttr attrs r) ≠ [] :=
      List.ne_nil_of_mem (List.mem_filter.mpr ⟨hreq, by rw [hm]; rfl⟩)
    have hie : (required.filter (fun r => !hasAttr attrs r)).isEmpty = false := by
      cases hfe : required.filter (fun r => !hasAttr attrs r) with
      | nil => exact absurd hfe hne
      | cons a l => rfl
    simp only [attrTagProcess, hie, Bool.false_eq_true, if_false]
  · have hemp : required.filter (fun r => !hasAttr attrs r) = [] := by
      refine List.filter_eq_nil_iff.mpr fun x hx => ?_
      rw [hall x hx]
      decide
    simp only [attrTagProcess, hemp, List.isEmpty_nil, if_true]
  · simp only [runVariableSubstitution, hv, if_true]
  · simp only [runVariableSubstitution, hv, Bool.false_eq_true, if_false]

theorem dispatch_order_witness :
    ({ ignoreTags := ["EXT-X-VERSION"] } : ParserConfig).ignoreTags.contains
        "EXT-X-VERSION" = true ∧
    tagStep { ignoreTags := ["EXT-X-VERSION"] } "EXT-X-VERSION" (some "7") []
        createDefaultParsedPlaylist createDefaultSharedState =
      some (createDefaultParsedPlaylist, createDefaultSharedState,
            [ignoreTagWarn "EXT-X-VERSION"]) ∧
    tagStep {} "EXT-X-ENDLIST" none [] createDefaultParsedPlaylist
        createDefaultSharedState =
      some ((extXEndListProcess createDefaultParsedPlaylist createDefaultSharedState).1,
            (extXEndListProcess createDefaultParsedPlaylist createDefaultSharedState).2,
            []) ∧
    tagStep { transformTagValue := fun _ _ => none } "EXT-X-VERSION" (some "7") []
        createDefaultParsedPlaylist createDefaultSharedState =
      some (createDefaultParsedPlaylist, createDefaultSharedState,
            [missingTagValueWarn "EXT-X-VERSION"]) ∧
    tagStep {} "EXT-X-VERSION" (some "7") [] createDefaultParsedPlaylist
        createDefaultSharedState =
      some (extXVersionProcess "7" createDefaultParsedPlaylist
        createDefaultSharedState) ∧
    tagStep {} "EXT-X-START" none [("TIME-OFFSET", "5")]
        createDefaultParsedPlaylist createDefaultSharedState =
      attrTagProcess ["TIME-OFFSET"] "EXT-X-START" extXStartSafeProcess
        [("TIME-OFFSET", "5")] createDefaultParsedPlaylist createDefaultSharedState ∧
    tagStep { customTagMap := [("EXT-X-CUSTOM", fun _ _ _ c s => (c, s))] }
        "EXT-X-CUSTOM" none [] createDefaultParsedPlaylist createDefaultSharedState =
      some (createDefaultParsedPlaylist, createDefaultSharedState, []) ∧
    tagStep {} "EXT-X-FOO" none [] createDefaultParsedPlaylist
        createDefaultSharedState =
      some (createDefaultParsedPlaylist, createDefaultSharedState,
            [unsupportedTagWarn "EXT-X-FOO"]) :=
  ⟨by decide,
   (dispatch_order { ignoreTags := ["EXT-X-VERSION"] } "EXT-X-VERSION" (some "7") []
      createDefaultParsedPlaylist createDefaultSharedState).1 (by decide),
   (dispatch_order {} "EXT-X-ENDLIST" none [] createDefaultParsedPlaylist
      createDefaultSharedState).2.1 (by decide) extXEndListProcess (by first | rfl | simp [emptyTagLookup, tagValueLookup, tagAttributesLookup, List.lookup, EXTM3U, EXT_X_VERSION, EXT_X_INDEPENDENT_SEGMENTS, EXT_X_ENDLIST, EXT_X_I_FRAMES_ONLY, EXT_X_DISCONTINUITY, EXT_X_GAP, EXT_X_TARGETDURATION, EXT_X_MEDIA_SEQUENCE, EXT_X_DISCONTINUITY_SEQUENCE, EXT_X_PLAYLIST_TYPE, EXTINF, EXT_X_BYTERANGE, EXT_X_BITRATE, EXT_X_PROGRAM_DATE_TIME, EXT_X_START, EXT_X_PART_INF, EXT_X_SERVER_CONTROL, EXT_X_KEY, EXT_X_MAP, EXT_X_PART, EXT_X_MEDIA, EXT_X_STREAM_INF, EXT_X_SKIP, EXT_X_I_FRAME_STREAM_INF, EXT_X_DATERANGE, EXT_X_PRELOAD_HINT, EXT_X_RENDITION_REPORT, EXT_X_SESSION_DATA, EXT_X_SESSION_KEY, EXT_X_CONTENT_STEERING, EXT_X_DEFINE]),
   ((dispatch_order { transformTagValue := fun _ _ => none } "EXT-X-VERSION" (some "7")
      [] createDefaultParsedPlaylist createDefaultSharedState).2.2.1 (by decide) (by first | rfl | simp [emptyTagLookup, tagValueLookup, tagAttributesLookup, List.lookup, EXTM3U, EXT_X_VERSION, EXT_X_INDEPENDENT_SEGMENTS, EXT_X_ENDLIST, EXT_X_I_FRAMES_ONLY, EXT_X_DISCONTINUITY, EXT_X_GAP, EXT_X_TARGETDURATION, EXT_X_MEDIA_SEQUENCE, EXT_X_DISCONTINUITY_SEQUENCE, EXT_X_PLAYLIST_TYPE, EXTINF, EXT_X_BYTERANGE, EXT_X_BITRATE, EXT_X_PROGRAM_DATE_TIME, EXT_X_START, EXT_X_PART_INF, EXT_X_SERVER_CONTROL, EXT_X_KEY, EXT_X_MAP, EXT_X_PART, EXT_X_MEDIA, EXT_X_STREAM_INF, EXT_X_SKIP, EXT_X_I_FRAME_STREAM_INF, EXT_X_DATERANGE, EXT_X_PRELOAD_HINT, EXT_X_RENDITION_REPORT, EXT_X_SESSION_DATA, EXT_X_SESSION_KEY, EXT_X_CONTENT_STEERING, EXT_X_DEFINE])
      extXVersionProcess (by first | rfl | simp [emptyTagLookup, tagValueLookup, tagAttributesLookup, List.lookup, EXTM3U, EXT_X_VERSION, EXT_X_INDEPENDENT_SEGMENTS, EXT_X_ENDLIST, EXT_X_I_FRAMES_ONLY, EXT_X_DISCONTINUITY, EXT_X_GAP, EXT_X_TARGETDURATION, EXT_X_MEDIA_SEQUENCE, EXT_X_DISCONTINUITY_SEQUENCE, EXT_X_PLAYLIST_TYPE, EXTINF, EXT_X_BYTERANGE, EXT_X_BITRATE, EXT_X_PROGRAM_DATE_TIME, EXT_X_START, EXT_X_PART_INF, EXT_X_SERVER_CONTROL, EXT_X_KEY, EXT_X_MAP, EXT_X_PART, EXT_X_MEDIA, EXT_X_STREAM_INF, EXT_X_SKIP, EXT_X_I_FRAME_STREAM_INF, EXT_X_DATERANGE, EXT_X_PRELOAD_HINT, EXT_X_RENDITION_REPORT, EXT_X_SESSION_DATA, EXT_X_SESSION_KEY, EXT_X_CONTENT_STEERING, EXT_X_DEFINE])).1 (by first | rfl | simp [emptyTagLookup, tagValueLookup, tagAttributesLookup, List.lookup, EXTM3U, EXT_X_VERSION, EXT_X_INDEPENDENT_SEGMENTS, EXT_X_ENDLIST, EXT_X_I_FRAMES_ONLY, EXT_X_DISCONTINUITY, EXT_X_GAP, EXT_X_TARGETDURATION, EXT_X_MEDIA_SEQUENCE, EXT_X_DISCONTINUITY_SEQUENCE, EXT_X_PLAYLIST_TYPE, EXTINF, EXT_X_BYTERANGE, EXT_X_BITRATE, EXT_X_PROGRAM_DATE_TIME, EXT_X_START, EXT_X_PART_INF, EXT_X_SERVER_CONTROL, EXT_X_KEY, EXT_X_MAP, EXT_X_PART, EXT_X_MEDIA, EXT_X_STREAM_INF, EXT_X_SKIP, EXT_X_I_FRAME_STREAM_INF, EXT_X_DATERANGE, EXT_X_PRELOAD_HINT, EXT_X_RENDITION_REPORT, EXT_X_SESSION_DATA, EXT_X_SESSION_KEY, EXT_X_CONTENT_STEERING, EXT_X_DEFINE]),
   ((dispatch_order {} "EXT-X-VERSION" (some "7") [] createDefaultParsedPlaylist
      createDefaultSharedState).2.2.1 (by decide) (by first | rfl | simp [emptyTagLookup, tagValueLookup, tagAttributesLookup, List.lookup, EXTM3U, EXT_X_VERSION, EXT_X_INDEPENDENT_SEGMENTS, EXT_X_ENDLIST, EXT_X_I_FRAMES_ONLY, EXT_X_DISCONTINUITY, EXT_X_GAP, EXT_X_TARGETDURATION, EXT_X_MEDIA_SEQUENCE, EXT_X_DISCONTINUITY_SEQUENCE, EXT_X_PLAYLIST_TYPE, EXTINF, EXT_X_BYTERANGE, EXT_X_BITRATE, EXT_X_PROGRAM_DATE_TIME, EXT_X_START, EXT_X_PART_INF, EXT_X_SERVER_CONTROL, EXT_X_KEY, EXT_X_MAP, EXT_X_PART, EXT_X_MEDIA, EXT_X_STREAM_INF, EXT_X_SKIP, EXT_X_I_FRAME_STREAM_INF, EXT_X_DATERANGE, EXT_X_PRELOAD_HINT, EXT_X_RENDITION_REPORT, EXT_X_SESSION_DATA, EXT_X_SESSION_KEY, EXT_X_CONTENT_STEERING, EXT_X_DEFINE]) extXVersionProcess (by first | rfl | simp [emptyTagLookup, tagValueLookup, tagAttributesLookup, List.lookup, EXTM3U, EXT_X_VERSION, EXT_X_INDEPENDENT_SEGMENTS, EXT_X_ENDLIST, EXT_X_I_FRAMES_ONLY, EXT_X_DISCONTINUITY, EXT_X_GAP, EXT_X_TARGETDURATION, EXT_X_MEDIA_SEQUENCE, EXT_X_DISCONTINUITY_SEQUENCE, EXT_X_PLAYLIST_TYPE, EXTINF, EXT_X_BYTERANGE, EXT_X_BITRATE, EXT_X_PROGRAM_DATE_TIME, EXT_X_START, EXT_X_PART_INF, EXT_X_SERVER_CONTROL, EXT_X_KEY, EXT_X_MAP, EXT_X_PART, EXT_X_MEDIA, EXT_X_STREAM_INF, EXT_X_SKIP, EXT_X_I_FRAME_STREAM_INF, EXT_X_DATERANGE, EXT_X_PRELOAD_HINT, EXT_X_RENDITION_REPORT, EXT_X_SESSION_DATA, EXT_X_SESSION_KEY, EXT_X_CONTENT_STEERING, EXT_X_DEFINE])).2 "7" (by first | rfl | simp [emptyTagLookup, tagValueLookup, tagAttributesLookup, List.lookup, EXTM3U, EXT_X_VERSION, EXT_X_INDEPENDENT_SEGMENTS, EXT_X_ENDLIST, EXT_X_I_FRAMES_ONLY, EXT_X_DISCONTINUITY, EXT_X_GAP, EXT_X_TARGETDURATION, EXT_X_MEDIA_SEQUENCE, EXT_X_DISCONTINUITY_SEQUENCE, EXT_X_PLAYLIST_TYPE, EXTINF, EXT_X_BYTERANGE, EXT_X_BITRATE, EXT_X_PROGRAM_DATE_TIME, EXT_X_START, EXT_X_PART_INF, EXT_X_SERVER_CONTROL, EXT_X_KEY, EXT_X_MAP, EXT_X_PART, EXT_X_MEDIA, EXT_X_STREAM_INF, EXT_X_SKIP, EXT_X_I_FRAME_STREAM_INF, EXT_X_DATERANGE, EXT_X_PRELOAD_HINT, EXT_X_RENDITION_REPORT, EXT_X_SESSION_DATA, EXT_X_SESSION_KEY, EXT_X_CONTENT_STEERING, EXT_X_DEFINE]),
   (dispatch_order {} "EXT-X-START" none [("TIME-OFFSET", "5")]
      createDefaultParsedPlaylist createDefaultSharedState).2.2.2.1 (by decide) (by first | rfl | simp [emptyTagLookup, tagValueLookup, tagAttributesLookup, List.lookup, EXTM3U, EXT_X_VERSION, EXT_X_INDEPENDENT_SEGMENTS, EXT_X_ENDLIST, EXT_X_I_FRAMES_ONLY, EXT_X_DISCONTINUITY, EXT_X_GAP, EXT_X_TARGETDURATION, EXT_X_MEDIA_SEQUENCE, EXT_X_DISCONTINUITY_SEQUENCE, EXT_X_PLAYLIST_TYPE, EXTINF, EXT_X_BYTERANGE, EXT_X_BITRATE, EXT_X_PROGRAM_DATE_TIME, EXT_X_START, EXT_X_PART_INF, EXT_X_SERVER_CONTROL, EXT_X_KEY, EXT_X_MAP, EXT_X_PART, EXT_X_MEDIA, EXT_X_STREAM_INF, EXT_X_SKIP, EXT_X_I_FRAME_STREAM_INF, EXT_X_DATERANGE, EXT_X_PRELOAD_HINT, EXT_X_RENDITION_REPORT, EXT_X_SESSION_DATA, EXT_X_SESSION_KEY, EXT_X_CONTENT_STEERING, EXT_X_DEFINE]) (by first | rfl | simp [emptyTagLookup, tagValueLookup, tagAttributesLookup, List.lookup, EXTM3U, EXT_X_VERSION, EXT_X_INDEPENDENT_SEGMENTS, EXT_X_ENDLIST, EXT_X_I_FRAMES_ONLY, EXT_X_DISCONTINUITY, EXT_X_GAP, EXT_X_TARGETDURATION, EXT_X_MEDIA_SEQUENCE, EXT_X_DISCONTINUITY_SEQUENCE, EXT_X_PLAYLIST_TYPE, EXTINF, EXT_X_BYTERANGE, EXT_X_BITRATE, EXT_X_PROGRAM_DATE_TIME, EXT_X_START, EXT_X_PART_INF, EXT_X_SERVER_CONTROL, EXT_X_KEY, EXT_X_MAP, EXT_X_PART, EXT_X_MEDIA, EXT_X_STREAM_INF, EXT_X_SKIP, EXT_X_I_FRAME_STREAM_INF, EXT_X_DATERANGE, EXT_X_PRELOAD_HINT, EXT_X_RENDITION_REPORT, EXT_X_SESSION_DATA, EXT_X_SESSION_KEY, EXT_X_CONTENT_STEERING, EXT_X_DEFINE])
      ["TIME-OFFSET"] extXStartSafeProcess (by first | rfl | simp [emptyTagLookup, tagValueLookup, tagAttributesLookup, List.lookup, EXTM3U, EXT_X_VERSION, EXT_X_INDEPENDENT_SEGMENTS, EXT_X_ENDLIST, EXT_X_I_FRAMES_ONLY, EXT_X_DISCONTINUITY, EXT_X_GAP, EXT_X_TARGETDURATION, EXT_X_MEDIA_SEQUENCE, EXT_X_DISCONTINUITY_SEQUENCE, EXT_X_PLAYLIST_TYPE, EXTINF, EXT_X_BYTERANGE, EXT_X_BITRATE, EXT_X_PROGRAM_DATE_TIME, EXT_X_START, EXT_X_PART_INF, EXT_X_SERVER_CONTROL, EXT_X_KEY, EXT_X_MAP, EXT_X_PART, EXT_X_MEDIA, EXT_X_STREAM_INF, EXT_X_SKIP, EXT_X_I_FRAME_STREAM_INF, EXT_X_DATERANGE, EXT_X_PRELOAD_HINT, EXT_X_RENDITION_REPORT, EXT_X_SESSION_DATA, EXT_X_SESSION_KEY, EXT_X_CONTENT_STEERING, EXT_X_DEFINE]),
   (dispatch_order { customTagMap := [("EXT-X-CUSTOM", fun _ _ _ c s => (c, s))] }
      "EXT-X-CUSTOM" none [] createDefaultParsedPlaylist
      createDefaultSharedState).2.2.2.2.1 (by decide) (by first | rfl | simp [emptyTagLookup, tagValueLookup, tagAttributesLookup, List.lookup, EXTM3U, EXT_X_VERSION, EXT_X_INDEPENDENT_SEGMENTS, EXT_X_ENDLIST, EXT_X_I_FRAMES_ONLY, EXT_X_DISCONTINUITY, EXT_X_GAP, EXT_X_TARGETDURATION, EXT_X_MEDIA_SEQUENCE, EXT_X_DISCONTINUITY_SEQUENCE, EXT_X_PLAYLIST_TYPE, EXTINF, EXT_X_BYTERANGE, EXT_X_BITRATE, EXT_X_PROGRAM_DATE_TIME, EXT_X_START, EXT_X_PART_INF, EXT_X_SERVER_CONTROL, EXT_X_KEY, EXT_X_MAP, EXT_X_PART, EXT_X_MEDIA, EXT_X_STREAM_INF, EXT_X_SKIP, EXT_X_I_FRAME_STREAM_INF, EXT_X_DATERANGE, EXT_X_PRELOAD_HINT, EXT_X_RENDITION_REPORT, EXT_X_SESSION_DATA, EXT_X_SESSION_KEY, EXT_X_CONTENT_STEERING, EXT_X_DEFINE]) (by first | rfl | simp [emptyTagLookup, tagValueLookup, tagAttributesLookup, List.lookup, EXTM3U, EXT_X_VERSION, EXT_X_INDEPENDENT_SEGMENTS, EXT_X_ENDLIST, EXT_X_I_FRAMES_ONLY, EXT_X_DISCONTINUITY, EXT_X_GAP, EXT_X_TARGETDURATION, EXT_X_MEDIA_SEQUENCE, EXT_X_DISCONTINUITY_SEQUENCE, EXT_X_PLAYLIST_TYPE, EXTINF, EXT_X_BYTERANGE, EXT_X_BITRATE, EXT_X_PROGRAM_DATE_TIME, EXT_X_START, EXT_X_PART_INF, EXT_X_SERVER_CONTROL, EXT_X_KEY, EXT_X_MAP, EXT_X_PART, EXT_X_MEDIA, EXT_X_STREAM_INF, EXT_X_SKIP, EXT_X_I_FRAME_STREAM_INF, EXT_X_DATERANGE, EXT_X_PRELOAD_HINT, EXT_X_RENDITION_REPORT, EXT_X_SESSION_DATA, EXT_X_SESSION_KEY, EXT_X_CONTENT_STEERING, EXT_X_DEFINE]) (by first | rfl | simp [emptyTagLookup, tagValueLookup, tagAttributesLookup, List.lookup, EXTM3U, EXT_X_VERSION, EXT_X_INDEPENDENT_SEGMENTS, EXT_X_ENDLIST, EXT_X_I_FRAMES_ONLY, EXT_X_DISCONTINUITY, EXT_X_GAP, EXT_X_TARGETDURATION, EXT_X_MEDIA_SEQUENCE, EXT_X_DISCONTINUITY_SEQUENCE, EXT_X_PLAYLIST_TYPE, EXTINF, EXT_X_BYTERANGE, EXT_X_BITRATE, EXT_X_PROGRAM_DATE_TIME, EXT_X_START, EXT_X_PART_INF, EXT_X_SERVER_CONTROL, EXT_X_KEY, EXT_X_MAP, EXT_X_PART, EXT_X_MEDIA, EXT_X_STREAM_INF, EXT_X_SKIP, EXT_X_I_FRAME_STREAM_INF, EXT_X_DATERANGE, EXT_X_PRELOAD_HINT, EXT_X_RENDITION_REPORT, EXT_X_SESSION_DATA, EXT_X_SESSION_KEY, EXT_X_CONTENT_STEERING, EXT_X_DEFINE])
      (fun _ _ _ c s => (c, s)) (by first | rfl | simp [emptyTagLookup, tagValueLookup, tagAttributesLookup, List.lookup, EXTM3U, EXT_X_VERSION, EXT_X_INDEPENDENT_SEGMENTS, EXT_X_ENDLIST, EXT_X_I_FRAMES_ONLY, EXT_X_DISCONTINUITY, EXT_X_GAP, EXT_X_TARGETDURATION, EXT_X_MEDIA_SEQUENCE, EXT_X_DISCONTINUITY_SEQUENCE, EXT_X_PLAYLIST_TYPE, EXTINF, EXT_X_BYTERANGE, EXT_X_BITRATE, EXT_X_PROGRAM_DATE_TIME, EXT_X_START, EXT_X_PART_INF, EXT_X_SERVER_CONTROL, EXT_X_KEY, EXT_X_MAP, EXT_X_PART, EXT_X_MEDIA, EXT_X_STREAM_INF, EXT_X_SKIP, EXT_X_I_FRAME_STREAM_INF, EXT_X_DATERANGE, EXT_X_PRELOAD_HINT, EXT_X_RENDITION_REPORT, EXT_X_SESSION_DATA, EXT_X_SESSION_KEY, EXT_X_CONTENT_STEERING, EXT_X_DEFINE]),
   (dispatch_order {} "EXT-X-FOO" none [] createDefaultParsedPlaylist
      createDefaultSharedState).2.2.2.2.2 (by decide) (by first | rfl | simp [emptyTagLookup, tagValueLookup, tagAttributesLookup, List.lookup, EXTM3U, EXT_X_VERSION, EXT_X_INDEPENDENT_SEGMENTS, EXT_X_ENDLIST, EXT_X_I_FRAMES_ONLY, EXT_X_DISCONTINUITY, EXT_X_GAP, EXT_X_TARGETDURATION, EXT_X_MEDIA_SEQUENCE, EXT_X_DISCONTINUITY_SEQUENCE, EXT_X_PLAYLIST_TYPE, EXTINF, EXT_X_BYTERANGE, EXT_X_BITRATE, EXT_X_PROGRAM_DATE_TIME, EXT_X_START, EXT_X_PART_INF, EXT_X_SERVER_CONTROL, EXT_X_KEY, EXT_X_MAP, EXT_X_PART, EXT_X_MEDIA, EXT_X_STREAM_INF, EXT_X_SKIP, EXT_X_I_FRAME_STREAM_INF, EXT_X_DATERANGE, EXT_X_PRELOAD_HINT, EXT_X_RENDITION_REPORT, EXT_X_SESSION_DATA, EXT_X_SESSION_KEY, EXT_X_CONTENT_STEERING, EXT_X_DEFINE]) (by first | rfl | simp [emptyTagLookup, tagValueLookup, tagAttributesLookup, List.lookup, EXTM3U, EXT_X_VERSION, EXT_X_INDEPENDENT_SEGMENTS, EXT_X_ENDLIST, EXT_X_I_FRAMES_ONLY, EXT_X_DISCONTINUITY, EXT_X_GAP, EXT_X_TARGETDURATION, EXT_X_MEDIA_SEQUENCE, EXT_X_DISCONTINUITY_SEQUENCE, EXT_X_PLAYLIST_TYPE, EXTINF, EXT_X_BYTERANGE, EXT_X_BITRATE, EXT_X_PROGRAM_DATE_TIME, EXT_X_START, EXT_X_PART_INF, EXT_X_SERVER_CONTROL, EXT_X_KEY, EXT_X_MAP, EXT_X_PART, EXT_X_MEDIA, EXT_X_STREAM_INF, EXT_X_SKIP, EXT_X_I_FRAME_STREAM_INF, EXT_X_DATERANGE, EXT_X_PRELOAD_HINT, EXT_X_RENDITION_REPORT, EXT_X_SESSION_DATA, EXT_X_SESSION_KEY, EXT_X_CONTENT_STEERING, EXT_X_DEFINE]) (by first | rfl | simp [emptyTagLookup, tagValueLookup, tagAttributesLookup, List.lookup, EXTM3U, EXT_X_VERSION, EXT_X_INDEPENDENT_SEGMENTS, EXT_X_ENDLIST, EXT_X_I_FRAMES_ONLY, EXT_X_DISCONTINUITY, EXT_X_GAP, EXT_X_TARGETDURATION, EXT_X_MEDIA_SEQUENCE, EXT_X_DISCONTINUITY_SEQUENCE, EXT_X_PLAYLIST_TYPE, EXTINF, EXT_X_BYTERANGE, EXT_X_BITRATE, EXT_X_PROGRAM_DATE_TIME, EXT_X_START, EXT_X_PART_INF, EXT_X_SERVER_CONTROL, EXT_X_KEY, EXT_X_MAP, EXT_X_PART, EXT_X_MEDIA, EXT_X_STREAM_INF, EXT_X_SKIP, EXT_X_I_FRAME_STREAM_INF, EXT_X_DATERANGE, EXT_X_PRELOAD_HINT, EXT_X_RENDITION_REPORT, EXT_X_SESSION_DATA, EXT_X_SESSION_KEY, EXT_X_CONTENT_STEERING, EXT_X_DEFINE]) (by first | rfl | simp [emptyTagLookup, tagValueLookup, tagAttributesLookup, List.lookup, EXTM3U, EXT_X_VERSION, EXT_X_INDEPENDENT_SEGMENTS, EXT_X_ENDLIST, EXT_X_I_FRAMES_ONLY, EXT_X_DISCONTINUITY, EXT_X_GAP, EXT_X_TARGETDURATION, EXT_X_MEDIA_SEQUENCE, EXT_X_DISCONTINUITY_SEQUENCE, EXT_X_PLAYLIST_TYPE, EXTINF, EXT_X_BYTERANGE, EXT_X_BITRATE, EXT_X_PROGRAM_DATE_TIME, EXT_X_START, EXT_X_PART_INF, EXT_X_SERVER_CONTROL, EXT_X_KEY, EXT_X_MAP, EXT_X_PART, EXT_X_MEDIA, EXT_X_STREAM_INF, EXT_X_SKIP, EXT_X_I_FRAME_STREAM_INF, EXT_X_DATERANGE, EXT_X_PRELOAD_HINT, EXT_X_RENDITION_REPORT, EXT_X_SESSION_DATA, EXT_X_SESSION_KEY, EXT_X_CONTENT_STEERING, EXT_X_DEFINE])⟩

theorem required_attribute_gate_witness :
    (∃ req ∈ ["TIME-OFFSET"], hasAttr ([] : AttrMap) req = false) ∧
    attrTagProcess ["TIME-OFFSET"] "EXT-X-START" extXStartSafeProcess []
        createDefaultParsedPlaylist createDefaultSharedState =
      some (createDefaultParsedPlaylist, createDefaultSharedState,
        (["TIME-OFFSET"].filter (fun r => !hasAttr ([] : AttrMap) r)).map
          (missingRequiredAttributeWarn "EXT-X-START")) ∧
    (∀ req ∈ ["TIME-OFFSET"], hasAttr [("TIME-OFFSET", "5")] req = true) ∧
    attrTagProcess ["TIME-OFFSET"] "EXT-X-START" extXStartSafeProcess
        [("TIME-OFFSET", "5")] createDefaultParsedPlaylist createDefaultSharedState =
      (extXStartSafeProcess
          (runVariableSubstitution "EXT-X-START" [("TIME-OFFSET", "5")]
            createDefaultParsedPlaylist createDefaultSharedState).1
          createDefaultParsedPlaylist createDefaultSharedState).map
        (fun r => (r.1, r.2.1,
          (runVariableSubstitution "EXT-X-START" [("TIME-OFFSET", "5")]
            createDefaultParsedPlaylist createDefaultSharedState).2 ++ r.2.2)) ∧
    (runVariableSubstitution "EXT-X-START" [("TIME-OFFSET", "5")]
        createDefaultParsedPlaylist
        { createDefaultSharedState with hasVariablesForSubstitution := true }).1 =
      [("TIME-OFFSET", "5")].map (fun kv =>
        (kv.1, (substituteVariables kv.2 createDefaultParsedPlaylist.define).1)) ∧
    (runVariableSubstitution "EXT-X-START" [("TIME-OFFSET", "5")]
        createDefaultParsedPlaylist createDefaultSharedState).1 =
      [("TIME-OFFSET", "5")] :=
  ⟨by decide,
   (required_attribute_gate _ _ extXStartSafeProcess _ _ _).1 (by decide),
   by decide,
   (required_attribute_gate _ _ extXStartSafeProcess _ _ _).2.1 (by decide),
   (required_attribute_gate ["TIME-OFFSET"] "EXT-X-START" extXStartSafeProcess
      [("TIME-OFFSET", "5")] createDefaultParsedPlaylist
      { createDefaultSharedState with hasVariablesForSubstitution := true }).2.2.1 (by first | rfl | simp [emptyTagLookup, tagValueLookup, tagAttributesLookup, List.lookup, EXTM3U, EXT_X_VERSION, EXT_X_INDEPENDENT_SEGMENTS, EXT_X_ENDLIST, EXT_X_I_FRAMES_ONLY, EXT_X_DISCONTINUITY, EXT_X_GAP, EXT_X_TARGETDURATION, EXT_X_MEDIA_SEQUENCE, EXT_X_DISCONTINUITY_SEQUENCE, EXT_X_PLAYLIST_TYPE, EXTINF, EXT_X_BYTERANGE, EXT_X_BITRATE, EXT_X_PROGRAM_DATE_TIME, EXT_X_START, EXT_X_PART_INF, EXT_X_SERVER_CONTROL, EXT_X_KEY, EXT_X_MAP, EXT_X_PART, EXT_X_MEDIA, EXT_X_STREAM_INF, EXT_X_SKIP, EXT_X_I_FRAME_STREAM_INF, EXT_X_DATERANGE, EXT_X_PRELOAD_HINT, EXT_X_RENDITION_REPORT, EXT_X_SESSION_DATA, EXT_X_SESSION_KEY, EXT_X_CONTENT_STEERING, EXT_X_DEFINE]),
   (required_attribute_gate ["TIME-OFFSET"] "EXT-X-START" extXStartSafeProcess
      [("TIME-OFFSET", "5")] createDefaultParsedPlaylist
      createDefaultSharedState).2.2.2 (by first | rfl | simp [emptyTagLookup, tagValueLookup, tagAttributesLookup, List.lookup, EXTM3U, EXT_X_VERSION, EXT_X_INDEPENDENT_SEGMENTS, EXT_X_ENDLIST, EXT_X_I_FRAMES_ONLY, EXT_X_DISCONTINUITY, EXT_X_GAP, EXT_X_TARGETDURATION, EXT_X_MEDIA_SEQUENCE, EXT_X_DISCONTINUITY_SEQUENCE, EXT_X_PLAYLIST_TYPE, EXTINF, EXT_X_BYTERANGE, EXT_X_BITRATE, EXT_X_PROGRAM_DATE_TIME, EXT_X_START, EXT_X_PART_INF, EXT_X_SERVER_CONTROL, EXT_X_KEY, EXT_X_MAP, EXT_X_PART, EXT_X_MEDIA, EXT_X_STREAM_INF, EXT_X_SKIP, EXT_X_I_FRAME_STREAM_INF, EXT_X_DATERANGE, EXT_X_PRELOAD_HINT, EXT_X_RENDITION_REPORT, EXT_X_SESSION_DATA, EXT_X_SESSION_KEY, EXT_X_CONTENT_STEERING, EXT_X_DEFINE])⟩

/-- C7: on a URI line, if resolving the post-substitution URI against
`baseUrl` fails, exactly one failed-to-resolve warning is emitted and the
variant's or segment's `resolvedUri` falls back to the post-substitution
URI unchanged; if resolution succeeds there is no such warning and
`resolvedUri` is the resolved value. The `uri` field always keeps the
post-substitution value. -/
theorem uri_resolution_fallback (uri : String) (p : ParsedPlaylist) (sh : SharedState) :
    (resolveUri (postSubstUri uri p sh) sh.baseUrl = none →
      sh.isMultivariantPlaylist = true →
      (uriStep uri p sh).2.2 =
        substWarns uri p sh ++
          [failedToResolveUri (postSubstUri uri p sh) sh.baseUrl] ∧
      ((uriStep uri p sh).1.variantStreams.getLast?).map (fun v => (v.uri, v.resolvedUri)) =
        some (postSubstUri uri p sh, postSubstUri uri p sh)) ∧
    (∀ r, resolveUri (postSubstUri uri p sh) sh.baseUrl = some r →
      sh.isMultivariantPlaylist = true →
      (uriStep uri p sh).2.2 = substWarns uri p sh ∧
      ((uriStep uri p sh).1.variantStreams.getLast?).map (fun v => (v.uri, v.resolvedUri)) =
        some (postSubstUri uri p sh, r)) ∧
    (resolveUri (postSubstUri uri p sh) sh.baseUrl = none →
      sh.isMultivariantPlaylist = false →
      (uriStep uri p sh).2.2 =
        substWarns uri p sh ++
          [failedToResolveUri (postSubstUri uri p sh) sh.baseUrl] ++
          (handleCurrentSegmentStep (postSubstUri uri p sh) (postSubstUri uri p sh) p sh).2.2 ∧
      ((uriStep uri p sh).1.segments.getLast?).map (fun sg => (sg.uri, sg.resolvedUri)) =
        some (postSubstUri uri p sh, postSubstUri uri p sh)) ∧
    (∀ r, resolveUri (postSubstUri uri p sh) sh.baseUrl = some r →
      sh.isMultivariantPlaylist = false →
      (uriStep uri p sh).2.2 =
        substWarns uri p sh ++
          (handleCurrentSegmentStep (postSubstUri uri p sh) r p sh).2.2 ∧
      ((uriStep uri p sh).1.segments.getLast?).map (fun sg => (sg.uri, sg.resolvedUri)) =
        some (postSubstUri uri p sh, r)) := by
  have hsu : (if sh.hasVariablesForSubstitution then
        ((substituteVariables uri p.define).1,
         (substituteVariables uri p.define).2.map
           (fun nm => missingRequiredVariableForUriSubstitutionWarn uri nm))
      else (uri, ([] : List String))) = (postSubstUri uri p sh, substWarns uri p sh) := by
    unfold postSubstUri substWarns
    cases sh.hasVariablesForSubstitution <;> rfl
  refine ⟨fun hr hm => ?_, fun r hr hm => ?_, fun hr hm => ?_, fun r hr hm => ?_⟩
  all_goals simp only [uriStep]
  all_goals rw [hsu]
  all_goals dsimp only
  all_goals rw [hr, hm]
  all_goals simp only [Bool.false_eq_true, if_false, if_true]
  · refine ⟨by simp, ?_⟩
    rw [(handleVarStep_eq _ _ p sh).1]
    simp only [List.getLast?_concat, Option.map_some']
  · refine ⟨by simp, ?_⟩
    rw [(handleVarStep_eq _ _ p sh).1]
    simp only [List.getLast?_concat, Option.map_some']
  · refine ⟨by simp, ?_⟩
    rw [(handleSegStep_eq _ _ p sh).1, List.getLast?_concat]
    simp only [Option.map_some', Option.some.injEq]
    exact Prod.ext ((buildSegment_fields _ _ p sh).2.2.2.1)
      ((buildSegment_fields _ _ p sh).2.2.2.2.1)
  · refine ⟨by simp, ?_⟩
    rw [(handleSegStep_eq _ _ p sh).1, List.getLast?_concat]
    simp only [Option.map_some', Option.some.injEq]
    exact Prod.ext ((buildSegment_fields _ _ p sh).2.2.2.1)
      ((buildSegment_fields _ _ p sh).2.2.2.2.1)

theorem uri_resolution_fallback_witness :
    ((uriStep "seg.ts" createDefaultParsedPlaylist ({ createDefaultSharedState with isMultivariantPlaylist := true })).2.2 =
      substWarns "seg.ts" createDefaultParsedPlaylist ({ createDefaultSharedState with isMultivariantPlaylist := true }) ++
        [failedToResolveUri (postSubstUri "seg.ts" createDefaultParsedPlaylist ({ createDefaultSharedState with isMultivariantPlaylist := true })) ({ createDefaultSharedState with isMultivariantPlaylist := true }).baseUrl] ∧
    ((uriStep "seg.ts" createDefaultParsedPlaylist ({ createDefaultSharedState with isMultivariantPlaylist := true })).1.variantStreams.getLast?).map (fun v => (v.uri, v.resolvedUri)) =
      some (postSubstUri "seg.ts" createDefaultParsedPlaylist ({ createDefaultSharedState with isMultivariantPlaylist := true }), postSubstUri "seg.ts" createDefaultParsedPlaylist ({ createDefaultSharedState with isMultivariantPlaylist := true }))) ∧
    ((uriStep "seg.ts" createDefaultParsedPlaylist ({ createDefaultSharedState with baseUrl := "https://example.com/main.m3u8", isMultivariantPlaylist := true })).2.2 = substWarns "seg.ts" createDefaultParsedPlaylist ({ createDefaultSharedState with baseUrl := "https://example.com/main.m3u8", isMultivariantPlaylist := true }) ∧
    ((uriStep "seg.ts" createDefaultParsedPlaylist ({ createDefaultSharedState with baseUrl := "https://example.com/main.m3u8", isMultivariantPlaylist := true })).1.variantStreams.getLast?).map (fun v => (v.uri, v.resolvedUri)) =
      some (postSubstUri "seg.ts" createDefaultParsedPlaylist ({ createDefaultSharedState with baseUrl := "https://example.com/main.m3u8", isMultivariantPlaylist := true }), "https://example.com/seg.ts")) ∧
    ((uriStep "seg.ts" createDefaultParsedPlaylist (createDefaultSharedState)).2.2 =
      substWarns "seg.ts" createDefaultParsedPlaylist (createDefaultSharedState) ++
        [failedToResolveUri (postSubstUri "seg.ts" createDefaultParsedPlaylist (createDefaultSharedState)) (createDefaultSharedState).baseUrl] ++
        (handleCurrentSegmentStep (postSubstUri "seg.ts" createDefaultParsedPlaylist (createDefaultSharedState)) (postSubstUri "seg.ts" createDefaultParsedPlaylist (createDefaultSharedState)) createDefaultParsedPlaylist (createDefaultSharedState)).2.2 ∧
    ((uriStep "seg.ts" createDefaultParsedPlaylist (createDefaultSharedState)).1.segments.getLast?).map (fun sg => (sg.uri, sg.resolvedUri)) =
      some (postSubstUri "seg.ts" createDefaultParsedPlaylist (createDefaultSharedState), postSubstUri "seg.ts" createDefaultParsedPlaylist (createDefaultSharedState))) ∧
    ((uriStep "seg.ts" createDefaultParsedPlaylist ({ createDefaultSharedState with baseUrl := "https://example.com/main.m3u8" })).2.2 =
      substWarns "seg.ts" createDefaultParsedPlaylist ({ createDefaultSharedState with baseUrl := "https://example.com/main.m3u8" }) ++
        (handleCurrentSegmentStep (postSubstUri "seg.ts" createDefaultParsedPlaylist ({ createDefaultSharedState with baseUrl := "https://example.com/main.m3u8" })) "https://example.com/seg.ts" createDefaultParsedPlaylist ({ createDefaultSharedState with baseUrl := "https://example.com/main.m3u8" })).2.2 ∧
    ((uriStep "seg.ts" createDefaultParsedPlaylist ({ createDefaultSharedState with baseUrl := "https://example.com/main.m3u8" })).1.segments.getLast?).map (fun sg => (sg.uri, sg.resolvedUri)) =
      some (postSubstUri "seg.ts" createDefaultParsedPlaylist ({ createDefaultSharedState with baseUrl := "https://example.com/main.m3u8" }), "https://example.com/seg.ts")) :=
  ⟨(uri_resolution_fallback "seg.ts" createDefaultParsedPlaylist ({ createDefaultSharedState with isMultivariantPlaylist := true })).1 (by decide) (by decide),
   (uri_resolution_fallback "seg.ts" createDefaultParsedPlaylist ({ createDefaultSharedState with baseUrl := "https://example.com/main.m3u8", isMultivariantPlaylist := true })).2.1 "https://example.com/seg.ts" (by decide) (by decide),
   (uri_resolution_fallback "seg.ts" createDefaultParsedPlaylist (createDefaultSharedState)).2.2.1 (by decide) (by decide),
   (uri_resolution_fallback "seg.ts" createDefaultParsedPlaylist ({ createDefaultSharedState with baseUrl := "https://example.com/main.m3u8" })).2.2.2 "https://example.com/seg.ts" (by decide) (by decide)⟩

/-- C10: the multivariant flag starts false, every successful
`EXT-X-STREAM-INF` processing sets it, scanning never unsets it (for
flag-preserving custom handlers), and once it is set the segment list
stops growing while every URI line appends a variant stream. -/
theorem multivariant_flag_monotone :
    (∀ (a : AttrMap) (p : ParsedPlaylist) (s : SharedState) (r : ProcResult),
      extXStreamInfSafeProcess a p s = some r →
      r.2.1.isMultivariantPlaylist = true) ∧
    createDefaultSharedState.isMultivariantPlaylist = false ∧
    (∀ (cfg : ParserConfig) (cs : List Char) (st st2 : ScanState × PEnv),
      CustomFlagOk cfg → feedChars cfg st cs = some st2 →
      st.2.shared.isMultivariantPlaylist = true →
      st2.2.shared.isMultivariantPlaylist = true ∧
      st2.2.playlist.segments = st.2.playlist.segments) ∧
    (∀ (uri : String) (p : ParsedPlaylist) (sh : SharedState),
      sh.isMultivariantPlaylist = true →
      (uriStep uri p sh).1.segments = p.segments ∧
      ∃ v, (uriStep uri p sh).1.variantStreams = p.variantStreams ++ [v]) := by
  refine ⟨?_, rfl, ?_, ?_⟩
  · intro a p s r h
    simp only [extXStreamInfSafeProcess] at h
    injection h with h
    subst h
    rfl
  · intro cfg cs st st2 hc hf hm
    obtain ⟨-, h2, h3⟩ := feedChars_ok cfg cs st st2 hf
    exact ⟨h2 hc hm, h3 hc hm⟩
  · intro uri p sh hm
    exact uriStep_multivariant uri p sh hm

theorem multivariant_flag_monotone_witness :
    ((extXStreamInfSafeProcess [("BANDWIDTH", "1000")] createDefaultParsedPlaylist
        createDefaultSharedState).map (fun r => r.2.1.isMultivariantPlaylist)) =
      some true ∧
    CustomFlagOk {} ∧
    ((feedChars {} (ScanState.lineStart,
        { shared := { createDefaultSharedState with isMultivariantPlaylist := true } })
        "uri.ts\n".data).map
      (fun st2 => (st2.2.shared.isMultivariantPlaylist, st2.2.playlist.segments))) =
      some (true, createDefaultParsedPlaylist.segments) ∧
    ({ createDefaultSharedState with
        isMultivariantPlaylist := true } : SharedState).isMultivariantPlaylist = true ∧
    (uriStep "uri.ts" createDefaultParsedPlaylist
        { createDefaultSharedState with isMultivariantPlaylist := true }).1.segments =
      createDefaultParsedPlaylist.segments ∧
    (∃ v, (uriStep "uri.ts" createDefaultParsedPlaylist
        { createDefaultSharedState with isMultivariantPlaylist := true }).1.variantStreams =
      createDefaultParsedPlaylist.variantStreams ++ [v]) := by
  have hflag : CustomFlagOk ({} : ParserConfig) := by
    intro pr hpr
    simp only [ParserConfig.customTagMap] at hpr
    exact absurd hpr (List.not_mem_nil pr)
  refine ⟨?_, hflag, ?_, rfl, ?_⟩
  · cases h : extXStreamInfSafeProcess [("BANDWIDTH", "1000")] createDefaultParsedPlaylist
        createDefaultSharedState with
    | none =>
      have hs : extXStreamInfSafeProcess [("BANDWIDTH", "1000")] createDefaultParsedPlaylist
          createDefaultSharedState ≠ none := by decide
      exact absurd h hs
    | some r =>
      rw [Option.map_some']
      exact congrArg some (multivariant_flag_monotone.1 _ _ _ r h)
  · cases h : feedChars {} (ScanState.lineStart,
        { shared := { createDefaultSharedState with isMultivariantPlaylist := true } })
        "uri.ts\n".data with
    | none =>
      have hs : feedChars {} (ScanState.lineStart,
          { shared := { createDefaultSharedState with isMultivariantPlaylist := true } })
          "uri.ts\n".data ≠ none := by decide
      exact absurd h hs
    | some st2 =>
      rw [Option.map_some']
      obtain ⟨h1, h2⟩ := multivariant_flag_monotone.2.2.1 {} "uri.ts\n".data _ st2 hflag h rfl
      rw [h1, h2]
  · exact multivariant_flag_monotone.2.2.2 "uri.ts" createDefaultParsedPlaylist
      { createDefaultSharedState with isMultivariantPlaylist := true } rfl

/-- C4: the first finalized segment of a media playlist starts at the
parse option `baseTime` (the value `gatherParseOptions` installs) and
takes its sequence numbers from the playlist's `mediaSequence` and
`discontinuitySequence` fields, which the (spec-modelled)
`EXT-X-MEDIA-SEQUENCE` / `EXT-X-DISCONTINUITY-SEQUENCE` processors keep
in sync with the segment under construction and which default to 0. -/
theorem first_segment_initialization (uri : String) (p : ParsedPlaylist) (sh : SharedState)
    (hm : sh.isMultivariantPlaylist = false) (hempty : p.segments = [])
    (hms : sh.currentSegment.mediaSequence = p.mediaSequence)
    (hds : sh.currentSegment.discontinuitySequence = p.discontinuitySequence) :
    (∃ seg, (uriStep uri p sh).1.segments = [seg] ∧
      seg.startTime = sh.baseTime ∧
      seg.mediaSequence = p.mediaSequence ∧
      seg.discontinuitySequence = p.discontinuitySequence) ∧
    (∀ (opts : ParseOptions) (env : PEnv),
      (gatherParseOptions opts env).shared.baseTime = opts.baseTime.getD 0) ∧
    (∀ (v : String) (p2 : ParsedPlaylist) (s2 : SharedState) (n : JsRat),
      jsNumber v = some n →
      (extXMediaSequenceProcess v p2 s2).1.mediaSequence = n ∧
      (extXMediaSequenceProcess v p2 s2).2.1.currentSegment.mediaSequence = n) ∧
    (∀ (v : String) (p2 : ParsedPlaylist) (s2 : SharedState) (n : JsRat),
      jsNumber v = some n →
      (extXDiscontinuitySequenceProcess v p2 s2).1.discontinuitySequence = n ∧
      (extXDiscontinuitySequenceProcess v p2 s2).2.1.currentSegment.discontinuitySequence
        = n) ∧
    createDefaultSharedState.currentSegment.mediaSequence =
      createDefaultParsedPlaylist.mediaSequence ∧
    createDefaultSharedState.currentSegment.discontinuitySequence =
      createDefaultParsedPlaylist.discontinuitySequence := by
  refine ⟨?_, fun opts env => rfl, ?_, ?_, rfl, rfl⟩
  · obtain ⟨u2, r2, hseg⟩ := uriStep_media uri p sh hm
    rw [hempty] at hseg
    have hnone : p.segments.getLast? = none := by rw [hempty]; rfl
    obtain ⟨hst, hmsq, hdsq⟩ := (buildSegment_fields u2 r2 p sh).2.2.2.2.2.2.2 hnone
    refine ⟨buildSegment u2 r2 p sh, by simpa using hseg, hst, ?_, ?_⟩
    · rw [hmsq, hms]
    · rw [hdsq, hds]
  · intro v p2 s2 n h
    simp [extXMediaSequenceProcess, h]
  · intro v p2 s2 n h
    simp [extXDiscontinuitySequenceProcess, h]

theorem first_segment_initialization_witness :
    (∃ seg, (uriStep "a.ts" { createDefaultParsedPlaylist with mediaSequence := 5, discontinuitySequence := 2 } { createDefaultSharedState with baseTime := 7, currentSegment := { createDefaultSegment with mediaSequence := 5, discontinuitySequence := 2 } }).1.segments = [seg] ∧
      seg.startTime = ({ createDefaultSharedState with baseTime := 7, currentSegment := { createDefaultSegment with mediaSequence := 5, discontinuitySequence := 2 } } : SharedState).baseTime ∧
      seg.mediaSequence = ({ createDefaultParsedPlaylist with mediaSequence := 5, discontinuitySequence := 2 } : ParsedPlaylist).mediaSequence ∧
      seg.discontinuitySequence = ({ createDefaultParsedPlaylist with mediaSequence := 5, discontinuitySequence := 2 } : ParsedPlaylist).discontinuitySequence) ∧
    jsNumber "5" = some 5 ∧
    (extXMediaSequenceProcess "5" createDefaultParsedPlaylist
        createDefaultSharedState).1.mediaSequence = 5 ∧
    (extXMediaSequenceProcess "5" createDefaultParsedPlaylist
        createDefaultSharedState).2.1.currentSegment.mediaSequence = 5 ∧
    (extXDiscontinuitySequenceProcess "2" createDefaultParsedPlaylist
        createDefaultSharedState).1.discontinuitySequence = 2 ∧
    (extXDiscontinuitySequenceProcess "2" createDefaultParsedPlaylist
        createDefaultSharedState).2.1.currentSegment.discontinuitySequence = 2 :=
  ⟨(first_segment_initialization "a.ts" { createDefaultParsedPlaylist with mediaSequence := 5, discontinuitySequence := 2 } { createDefaultSharedState with baseTime := 7, currentSegment := { createDefaultSegment with mediaSequence := 5, discontinuitySequence := 2 } } (by decide) (by decide) (by decide) (by decide)).1,
   by decide,
   (first_segment_initialization "a.ts" createDefaultParsedPlaylist createDefaultSharedState (by decide) (by decide) (by decide) (by decide)).2.2.1 "5" createDefaultParsedPlaylist createDefaultSharedState 5 (by decide) |>.1,
   (first_segment_initialization "a.ts" createDefaultParsedPlaylist createDefaultSharedState (by decide) (by decide) (by decide) (by decide)).2.2.1 "5" createDefaultParsedPlaylist createDefaultSharedState 5 (by decide) |>.2,
   (first_segment_initialization "a.ts" createDefaultParsedPlaylist createDefaultSharedState (by decide) (by decide) (by decide) (by decide)).2.2.2.1 "2" createDefaultParsedPlaylist createDefaultSharedState 2 (by decide) |>.1,
   (first_segment_initialization "a.ts" createDefaultParsedPlaylist createDefaultSharedState (by decide) (by decide) (by decide) (by decide)).2.2.2.1 "2" createDefaultParsedPlaylist createDefaultSharedState 2 (by decide) |>.2⟩

/-- C3: in any playlist a full parse returns (starting from a state whose
accumulated segments are already well-linked, in particular the fresh
default state), adjacent segments satisfy the chain invariants: media
sequence increments by one, start time equals the previous end time, end
time is start plus duration, and the discontinuity sequence increments
exactly on discontinuity segments. -/
theorem segment_chain_invariants (cfg : ParserConfig) (opts : ParseOptions)
    (input : String) (env0 : PEnv) (hc : SegChain env0.playlist.segments)
    (r : ParsedPlaylist × PEnv)
    (h : parseFullPlaylistString cfg env0 input opts = some r) :
    ∀ i : Nat, ∀ hi : i + 1 < r.1.segments.length,
      (r.1.segments.get ⟨i + 1, hi⟩).mediaSequence =
          (r.1.segments.get ⟨i, Nat.lt_of_succ_lt hi⟩).mediaSequence + 1 ∧
      (r.1.segments.get ⟨i + 1, hi⟩).startTime =
          (r.1.segments.get ⟨i, Nat.lt_of_succ_lt hi⟩).endTime ∧
      (r.1.segments.get ⟨i + 1, hi⟩).endTime =
          (r.1.segments.get ⟨i + 1, hi⟩).startTime +
            (r.1.segments.get ⟨i + 1, hi⟩).duration ∧
      (r.1.segments.get ⟨i + 1, hi⟩).discontinuitySequence =
        (if (r.1.segments.get ⟨i + 1, hi⟩).isDiscontinuity
         then (r.1.segments.get ⟨i, Nat.lt_of_succ_lt hi⟩).discontinuitySequence + 1
         else (r.1.segments.get ⟨i, Nat.lt_of_succ_lt hi⟩).discontinuitySequence) := by
  intro i hi
  simp only [parseFullPlaylistString, Option.map_eq_some'] at h
  obtain ⟨st, hst, hr⟩ := h
  have hchain : SegChain st.2.playlist.segments := feedChars_chain cfg _ _ st hst hc
  have hrseg : r.1.segments = st.2.playlist.segments := by rw [← hr]; rfl
  have hchain2 : SegChain r.1.segments := by rw [hrseg]; exact hchain
  have hl := List.chain'_iff_get.mp hchain2 i (by omega)
  obtain ⟨h1, h2, h3, h4⟩ := hl
  exact ⟨h1, h2, h3, h4⟩

theorem segment_chain_invariants_witness :
    ∃ r, parseFullPlaylistString {} {} "#EXTINF:5,\na.ts\n#EXTINF:4,\nb.ts"
        { baseUrl := "https://example.com/main.m3u8" } = some r ∧
      ∃ h1 : 0 + 1 < r.1.segments.length,
        (r.1.segments.get ⟨0 + 1, h1⟩).mediaSequence =
            (r.1.segments.get ⟨0, Nat.lt_of_succ_lt h1⟩).mediaSequence + 1 ∧
        (r.1.segments.get ⟨0 + 1, h1⟩).startTime =
            (r.1.segments.get ⟨0, Nat.lt_of_succ_lt h1⟩).endTime ∧
        (r.1.segments.get ⟨0 + 1, h1⟩).endTime =
            (r.1.segments.get ⟨0 + 1, h1⟩).startTime +
              (r.1.segments.get ⟨0 + 1, h1⟩).duration ∧
        (r.1.segments.get ⟨0 + 1, h1⟩).discontinuitySequence =
          (if (r.1.segments.get ⟨0 + 1, h1⟩).isDiscontinuity
           then (r.1.segments.get ⟨0, Nat.lt_of_succ_lt h1⟩).discontinuitySequence + 1
           else (r.1.segments.get ⟨0, Nat.lt_of_succ_lt h1⟩).discontinuitySequence) := by
  cases hp : parseFullPlaylistString {} {} "#EXTINF:5,\na.ts\n#EXTINF:4,\nb.ts"
      { baseUrl := "https://example.com/main.m3u8" } with
  | none =>
    have hs : parseFullPlaylistString {} {} "#EXTINF:5,\na.ts\n#EXTINF:4,\nb.ts"
        { baseUrl := "https://example.com/main.m3u8" } ≠ none := by decide
    exact absurd hp hs
  | some r =>
    have hlen : 0 + 1 < r.1.segments.length := by
      have hx : (parseFullPlaylistString {} {} "#EXTINF:5,\na.ts\n#EXTINF:4,\nb.ts"
          { baseUrl := "https://example.com/main.m3u8" }).map
            (fun q => decide (0 + 1 < q.1.segments.length)) = some true := by decide
      rw [hp] at hx
      simp only [Option.map_some', Option.some.injEq] at hx
      exact of_decide_eq_true hx
    exact ⟨r, rfl, hlen,
      segment_chain_invariants {} { baseUrl := "https://example.com/main.m3u8" }
        "#EXTINF:5,\na.ts\n#EXTINF:4,\nb.ts" {} List.chain'_nil r hp 0 hlen⟩

theorem parseFull_warns_irrelevant (cfg : ParserConfig) (p : ParsedPlaylist)
    (sh : SharedState) (w : List String) (input : String) (opts : ParseOptions) :
    (parseFullPlaylistString cfg ⟨p, sh, w⟩ input opts).map Prod.fst =
      (parseFullPlaylistString cfg ⟨p, sh, []⟩ input opts).map Prod.fst := by
  simp only [parseFullPlaylistString]
  rw [show gatherParseOptions opts (⟨p, sh, w⟩ : PEnv) = ⟨p, { sh with baseDefine := opts.baseDefine, baseUrl := opts.baseUrl, baseTime := opts.baseTime.getD 0 }, w⟩ from rfl]
  rw [show gatherParseOptions opts (⟨p, sh, []⟩ : PEnv) = ⟨p, { sh with baseDefine := opts.baseDefine, baseUrl := opts.baseUrl, baseTime := opts.baseTime.getD 0 }, []⟩ from rfl]
  rw [feedChars_warns]
  cases feedChars cfg (ScanState.lineStart, ⟨p, { sh with baseDefine := opts.baseDefine, baseUrl := opts.baseUrl, baseTime := opts.baseTime.getD 0 }, []⟩) (input.data ++ [Char.ofNat 10]) with
  | none => rfl
  | some st => rfl

/-- C9: a full parse (and `done()` of a progressive parse) returns the
accumulated playlist while resetting the parser's internal playlist and
shared state to the freshly-created defaults, so a subsequent parse on
the same instance yields the same playlist as a parse on a brand-new
instance (only the warn log survives, and it does not influence the
result). -/
theorem parser_state_reset (cfg : ParserConfig) (env0 : PEnv) (input : String)
    (opts : ParseOptions) (r : ParsedPlaylist × PEnv)
    (h : parseFullPlaylistString cfg env0 input opts = some r) :
    r.2.playlist = createDefaultParsedPlaylist ∧
    r.2.shared = createDefaultSharedState ∧
    (∀ (input2 : String) (opts2 : ParseOptions),
      (parseFullPlaylistString cfg r.2 input2 opts2).map Prod.fst =
        (parseFullPlaylistString cfg {} input2 opts2).map Prod.fst) ∧
    (∃ st, feedChars cfg (ScanState.lineStart, gatherParseOptions opts env0)
        (input.data ++ ['\n']) = some st ∧ r.1 = st.2.playlist) ∧
    (∀ (env : PEnv) (sm : ScanState) (d : ParsedPlaylist × ProgressiveState),
      progressiveDone cfg ⟨env, some sm⟩ = some d →
      d.2.env.playlist = createDefaultParsedPlaylist ∧
      d.2.env.shared = createDefaultSharedState ∧
      d.2.stateMachine = none) ∧
    (∀ (env : PEnv) (d : ParsedPlaylist × ProgressiveState),
      progressiveDone cfg ⟨env, none⟩ = some d →
      d.1 = env.playlist ∧
      d.2.env.playlist = createDefaultParsedPlaylist ∧
      d.2.env.shared = createDefaultSharedState ∧
      d.2.stateMachine = none) := by
  simp only [parseFullPlaylistString, Option.map_eq_some'] at h
  obtain ⟨st, hst, hr⟩ := h
  refine ⟨by rw [← hr]; rfl, by rw [← hr]; rfl, ?_, ⟨st, hst, by rw [← hr]; rfl⟩, ?_, ?_⟩
  · intro input2 opts2
    rw [← hr]
    exact parseFull_warns_irrelevant cfg createDefaultParsedPlaylist
      createDefaultSharedState st.2.warns input2 opts2
  · intro env sm d hd
    simp only [progressiveDone, Option.map_eq_some'] at hd
    obtain ⟨st2, hst2, hd2⟩ := hd
    rw [← hd2]
    exact ⟨rfl, rfl, rfl⟩
  · intro env d hd
    simp only [progressiveDone] at hd
    injection hd with hd
    rw [← hd]
    exact ⟨rfl, rfl, rfl, rfl⟩

theorem parser_state_reset_witness :
    ∃ r, parseFullPlaylistString {} {} "#EXTINF:1,\ns.ts"
        { baseUrl := "https://example.com/m.m3u8" } = some r ∧
      r.2.playlist = createDefaultParsedPlaylist ∧
      r.2.shared = createDefaultSharedState ∧
      (parseFullPlaylistString {} r.2 "#EXTM3U"
          { baseUrl := "https://example.com/m.m3u8" }).map Prod.fst =
        (parseFullPlaylistString {} {} "#EXTM3U"
          { baseUrl := "https://example.com/m.m3u8" }).map Prod.fst ∧
      (∃ st, feedChars {} (ScanState.lineStart,
          gatherParseOptions { baseUrl := "https://example.com/m.m3u8" } {})
          ("#EXTINF:1,\ns.ts".data ++ ['\n']) = some st ∧ r.1 = st.2.playlist) ∧
      ((cleanParser {}).1, (⟨(cleanParser {}).2, none⟩ : ProgressiveState)).1 =
        ({} : PEnv).playlist := by
  cases hp : parseFullPlaylistString {} {} "#EXTINF:1,\ns.ts"
      { baseUrl := "https://example.com/m.m3u8" } with
  | none =>
    have hs : parseFullPlaylistString {} {} "#EXTINF:1,\ns.ts"
        { baseUrl := "https://example.com/m.m3u8" } ≠ none := by decide
    exact absurd hp hs
  | some r =>
    obtain ⟨h1, h2, h3, h4, -, h6⟩ := parser_state_reset {} {} "#EXTINF:1,\ns.ts"
      { baseUrl := "https://example.com/m.m3u8" } r hp
    exact ⟨r, rfl, h1, h2, h3 "#EXTM3U" { baseUrl := "https://example.com/m.m3u8" }, h4,
      (h6 {} ((cleanParser {}).1, ⟨(cleanParser {}).2, none⟩) rfl).1⟩

theorem feedChars_append (cfg : ParserConfig) (st : ScanState × PEnv) (l1 l2 : List Char) :
    feedChars cfg st (l1 ++ l2) =
      (feedChars cfg st l1).bind (fun st1 => feedChars cfg st1 l2) := by
  simp only [feedChars, List.foldlM_append]
  rfl

/-- C2: progressive parsing is independent of chunk boundaries — pushing
any partition of the input and calling `done` yields the playlist the
full parser returns on the joined input, provided the caller-supplied
custom tag handlers do not disturb the parse-option fields of the shared
state (the progressive parser re-gathers the options on every push). -/
theorem chunking_equivalence (cfg : ParserConfig) (opts : ParseOptions)
    (hcb : CustomBaseOk cfg) (chunks : List String) :
    ((pushAllStrings cfg opts ⟨{}, none⟩ chunks).bind (progressiveDone cfg)).map
        Prod.fst =
      (parseFullPlaylistString cfg {} (String.join chunks) opts).map Prod.fst := by
  cases chunks with
  | nil => rfl
  | cons c cs =>
    have hjoin : (String.join (c :: cs)).data ++ ['\n'] =
        c.data ++ (cs.flatMap String.data ++ ['\n']) := by
      rw [joinData, List.flatMap_cons, List.append_assoc]
    simp only [parseFullPlaylistString]
    rw [hjoin, feedChars_append]
    rw [pushAllStrings, List.foldlM_cons]
    rw [show pushString cfg ⟨{}, none⟩ c opts =
        (feedChars cfg (ScanState.lineStart, gatherParseOptions opts {}) c.data).map
          (fun st => ⟨st.2, some st.1⟩) from rfl]
    cases hF : feedChars cfg (ScanState.lineStart, gatherParseOptions opts {}) c.data with
    | none => simp
    | some st1 =>
      simp only [Option.map_some', Option.pure_def, Option.bind_eq_bind, Option.some_bind]
      have hg1 : BaseGathered opts st1.2.shared := by
        have h0 : BaseGathered opts (gatherParseOptions opts ({} : PEnv)).shared :=
          gatherParseOptions_gathered opts {}
        have hok := feedChars_ok cfg c.data
          (ScanState.lineStart, gatherParseOptions opts {}) st1 hF
        exact baseGathered_of_baseEq opts _ _ h0 (hok.1 hcb)
      have hmain := pushAllDone_feed cfg opts hcb cs st1.1 st1.2 hg1
      rw [show (st1.1, st1.2) = st1 from rfl] at hmain
      have hLHS : (cs.foldlM (fun st c => pushString cfg st c opts)
          (⟨st1.2, some st1.1⟩ : ProgressiveState)) =
          pushAllStrings cfg opts ⟨st1.2, some st1.1⟩ cs := rfl
      rw [hLHS, hmain]

theorem chunking_equivalence_witness :
    CustomBaseOk {} ∧
    ((pushAllStrings {} { baseUrl := "https://example.com/m.m3u8" } ⟨{}, none⟩
        ["#EXTM3U\n#EXTI", "NF:5,\na.ts"]).bind (progressiveDone {})).map Prod.fst =
      (parseFullPlaylistString {} {}
        (String.join ["#EXTM3U\n#EXTI", "NF:5,\na.ts"])
        { baseUrl := "https://example.com/m.m3u8" }).map Prod.fst := by
  have hcb : CustomBaseOk ({} : ParserConfig) := by
    intro pr hpr
    exact absurd hpr (List.not_mem_nil pr)
  exact ⟨hcb, chunking_equivalence {} { baseUrl := "https://example.com/m.m3u8" } hcb
    ["#EXTM3U\n#EXTI", "NF:5,\na.ts"]⟩
